import Mathlib

/-!
# Eece2027: a two-source / two-destination network simulation on FreeRTOS

Shallow embedding of `src/main.c` and the properties of its specification.

* `uint32_t` values are natural numbers below `U32 = 2^32`; every increment,
  decrement, sum and difference of the source is reduced modulo `U32`.
* A frame pointer is modelled by the frame it points to.  The payload bytes
  (`frameData`) are never read by the program and are left out.
* `rand()`, `pvPortMalloc` and the outcome of `xQueueSend` are inputs.
* `vTaskDelay` and the trace output change no program variable; where a claim is
  about them they are recorded in a result value.
-/

namespace Eece2027

/-- Modulus of `uint32_t` arithmetic. -/
def U32 : Nat := 4294967296

/-- `x++` / `x + 1` on a `uint32_t`. -/
def incU32 (x : Nat) : Nat := (x + 1) % U32

/-- `x--` on a `uint32_t`. -/
def decU32 (x : Nat) : Nat := (x + U32 - 1) % U32

/-- `a - b` on `uint32_t` operands. -/
def subU32 (a b : Nat) : Nat := (a + U32 - b % U32) % U32

/-- `NetworkDataFrame` (lines 24-30), without the payload bytes. -/
structure NetworkDataFrame where
  destinationId : Nat
  sourceId : Nat
  frameIndex : Nat
  frameLength : Nat
  deriving DecidableEq, Repr

/-- `NET_MAX_PAYLOAD_SIZE` (line 21). -/
def NET_MAX_PAYLOAD_SIZE : Nat := 1000

/-- The global counters of lines 39-50 and the flag of line 61. -/
structure Globals where
  networkNode1To3Count : Nat
  networkNode1To4Count : Nat
  networkNode2To3Count : Nat
  networkNode2To4Count : Nat
  destination3FromNode1Received : Nat
  destination3FromNode1Lost : Nat
  destination3FromNode2Received : Nat
  destination3FromNode2Lost : Nat
  destination4FromNode1Received : Nat
  destination4FromNode1Lost : Nat
  destination4FromNode2Received : Nat
  destination4FromNode2Lost : Nat
  analyticsComplete : Bool
  deriving DecidableEq, Repr

/-- The initial values of the globals: every counter `0`, the flag `pdFALSE`. -/
def Globals.init : Globals :=
  ⟨0, 0, 0, 0, 0, 0, 0, 0, 0, 0, 0, 0, false⟩

/-! ## Producers (`TransmitNode1Packet`, `TransmitNode2Packet`)

The two functions have the same text up to `nodeIdentity` (1 or 2), the payload
filler, the initial 500 ms delay of node 2, and the pair of global counters they
use (`networkNode1To*Count` for node 1, `networkNode2To*Count` for node 2).
They are embedded once, with `nodeIdentity` a parameter that selects the
counters. -/

/-- The global sent counter a producer uses for a destination:
`networkNode<nodeIdentity>To3Count` when the destination is 3,
`networkNode<nodeIdentity>To4Count` otherwise (the `else` branch). -/
def sentCounter (nodeIdentity destinationId : Nat) (g : Globals) : Nat :=
  if nodeIdentity = 1 then
    if destinationId = 3 then g.networkNode1To3Count else g.networkNode1To4Count
  else
    if destinationId = 3 then g.networkNode2To3Count else g.networkNode2To4Count

/-- Assignment to the counter read by `sentCounter`. -/
def setSentCounter (nodeIdentity destinationId : Nat) (v : Nat) (g : Globals) : Globals :=
  if nodeIdentity = 1 then
    if destinationId = 3 then { g with networkNode1To3Count := v }
    else { g with networkNode1To4Count := v }
  else
    if destinationId = 3 then { g with networkNode2To3Count := v }
    else { g with networkNode2To4Count := v }

/-- The locals `sentTo3`, `sentTo4` of a producer (lines 70, 133). -/
structure TxLocal where
  sentTo3 : Nat
  sentTo4 : Nat
  deriving DecidableEq, Repr

/-- Lines 80-91 (143-154): the destination is 3 when `rand() % 2` is non-zero and 4
otherwise; the frame takes the current global counter of the pair as its index,
then both the global counter and the local count are incremented. -/
def txAssign (nodeIdentity randValue : Nat) (g : Globals) (l : TxLocal) :
    NetworkDataFrame × Globals × TxLocal :=
  let destinationId := if randValue % 2 ≠ 0 then 3 else 4
  if destinationId = 3 then
    (⟨destinationId, nodeIdentity, sentCounter nodeIdentity 3 g, NET_MAX_PAYLOAD_SIZE⟩,
      setSentCounter nodeIdentity 3 (incU32 (sentCounter nodeIdentity 3 g)) g,
      { l with sentTo3 := incU32 l.sentTo3 })
  else
    (⟨destinationId, nodeIdentity, sentCounter nodeIdentity 4 g, NET_MAX_PAYLOAD_SIZE⟩,
      setSentCounter nodeIdentity 4 (incU32 (sentCounter nodeIdentity 4 g)) g,
      { l with sentTo4 := incU32 l.sentTo4 })

/-- Lines 108-114 (171-177): the rollback after a dropped frame.  The frame has been
freed on the line before; its `destinationId` is read as written at line 80. -/
def txRollback (nodeIdentity : Nat) (frame : NetworkDataFrame) (g : Globals) (l : TxLocal) :
    Globals × TxLocal :=
  if frame.destinationId = 3 then
    (setSentCounter nodeIdentity 3 (decU32 (sentCounter nodeIdentity 3 g)) g,
      { l with sentTo3 := decU32 l.sentTo3 })
  else
    (setSentCounter nodeIdentity 4 (decU32 (sentCounter nodeIdentity 4 g)) g,
      { l with sentTo4 := decU32 l.sentTo4 })

/-- What the `do ... while` of lines 93-102 leaves behind: the last `sendStatus`
(`true` for `pdPASS`), how many times `xQueueSend` was called, and the arguments
in milliseconds of the `vTaskDelay` calls of line 100, in order. -/
structure SendOutcome where
  sendStatus : Bool
  attempts : Nat
  backoffs : List Nat
  deriving DecidableEq, Repr

/-- The `do ... while (sendStatus != pdPASS && --retryCount > 0)` loop of lines 95-102.
`xQueueSend k` is the outcome of the call number `k` (from 0) for this frame.
`retryCount` is the C `int`, which starts at 3 and stays non-negative while the loop
runs; the loop continues after a failed send exactly when the decremented value is
positive. -/
def sendLoop (xQueueSend : Nat → Bool) : Nat → Nat → List Nat → SendOutcome
  | 0, attempts, backoffs =>
    if xQueueSend attempts then ⟨true, attempts + 1, backoffs⟩
    else ⟨false, attempts + 1, backoffs ++ [50 * (4 - 0)]⟩
  | retryCount + 1, attempts, backoffs =>
    if xQueueSend attempts then ⟨true, attempts + 1, backoffs⟩
    else
      let backoffs := backoffs ++ [50 * (4 - (retryCount + 1))]
      if 0 < retryCount then sendLoop xQueueSend retryCount (attempts + 1) backoffs
      else ⟨false, attempts + 1, backoffs⟩

/-- Lines 93-102 with `int retryCount = 3`. -/
def sendWithRetry (xQueueSend : Nat → Bool) : SendOutcome :=
  sendLoop xQueueSend 3 0 []

/-- The inputs of one iteration of a producer loop: whether `pvPortMalloc` returned a
frame, the value of `rand()`, and the outcomes of the `xQueueSend` calls. -/
structure TxInput where
  allocOk : Bool
  randValue : Nat
  xQueueSend : Nat → Bool

/-- A producer on its own: the globals, its locals, and the frames it has put on the
central queue (oldest first). -/
structure TxState where
  g : Globals
  loc : TxLocal
  centralQueue : List NetworkDataFrame
  deriving DecidableEq, Repr

/-- The state in which a producer starts. -/
def TxState.init : TxState := ⟨Globals.init, ⟨0, 0⟩, []⟩

/-- The loop condition of lines 72 and 135. -/
def txContinue (l : TxLocal) : Bool :=
  decide (l.sentTo3 < 1000) && decide (l.sentTo4 < 1000)

/-- One iteration of the `while` body, lines 73-120 (136-183). -/
def transmitIteration (nodeIdentity : Nat) (inp : TxInput) (s : TxState) : TxState :=
  if inp.allocOk = false then s
  else
    let (frame, g1, l1) := txAssign nodeIdentity inp.randValue s.g s.loc
    let out := sendWithRetry inp.xQueueSend
    if out.sendStatus = false then
      let (g2, l2) := txRollback nodeIdentity frame g1 l1
      { g := g2, loc := l2, centralQueue := s.centralQueue }
    else
      { g := g1, loc := l1, centralQueue := s.centralQueue ++ [frame] }

/-- The `while` loop of lines 72-121 (135-184) on a list of iteration inputs: `some`
state when the loop condition fails, `none` when the inputs run out while the loop is
still running. -/
def transmitLoop (nodeIdentity : Nat) : List TxInput → TxState → Option TxState
  | inputs, s =>
    if txContinue s.loc then
      match inputs with
      | [] => none
      | inp :: rest => transmitLoop nodeIdentity rest (transmitIteration nodeIdentity inp s)
    else some s

/-- The state reached after the iterations that a list of inputs drives (the loop
stops consuming inputs once its condition fails). -/
def transmitRun (nodeIdentity : Nat) : List TxInput → TxState → TxState
  | [], s => s
  | inp :: rest, s =>
    if txContinue s.loc then
      transmitRun nodeIdentity rest (transmitIteration nodeIdentity inp s)
    else s

/-- Line 124 (187): the flag is set when both local counts are at least 1000. -/
def txFinish (s : TxState) : TxState :=
  if 1000 ≤ s.loc.sentTo3 ∧ 1000 ≤ s.loc.sentTo4 then
    { s with g := { s.g with analyticsComplete := true } }
  else s

/-- The whole task body up to `vTaskSuspend(NULL)`. -/
def transmitPacket (nodeIdentity : Nat) (inputs : List TxInput) (s : TxState) :
    Option TxState :=
  (transmitLoop nodeIdentity inputs s).map txFinish

/-- `TransmitNode1Packet`, lines 66-126. -/
def TransmitNode1Packet (inputs : List TxInput) : Option TxState :=
  transmitPacket 1 inputs TxState.init

/-- `TransmitNode2Packet`, lines 128-189. -/
def TransmitNode2Packet (inputs : List TxInput) : Option TxState :=
  transmitPacket 2 inputs TxState.init

/-- An iteration input: allocation succeeds, `rand()` is odd (destination 3), the first
`xQueueSend` succeeds. -/
def inputTo3 : TxInput := ⟨true, 1, fun _ => true⟩

/-- An iteration input: allocation succeeds, `rand()` is odd, every `xQueueSend`
fails. -/
def inputFail : TxInput := ⟨true, 1, fun _ => false⟩

/-! ## Receivers (`ReceiveDestinationFrame`) -/

/-- The locals `expectedFromNode1`, `expectedFromNode2` of a receiver (line 227). -/
structure RxLocal where
  expectedFromNode1 : Nat
  expectedFromNode2 : Nat
  deriving DecidableEq, Repr

/-- The four branches of lines 241-257; each fixes the three pointers
`receivedCount`, `lostCount` and `expectedIndex`. -/
inductive RxSlot where
  | d3n1
  | d3n2
  | d4n1
  | d4n2
  deriving DecidableEq, Repr

/-- The branch taken at lines 241-257. -/
def rxSlot (nodeIdentity sourceNode : Nat) : RxSlot :=
  if nodeIdentity = 3 ∧ sourceNode = 1 then RxSlot.d3n1
  else if nodeIdentity = 3 ∧ sourceNode = 2 then RxSlot.d3n2
  else if nodeIdentity = 4 ∧ sourceNode = 1 then RxSlot.d4n1
  else RxSlot.d4n2

/-- `*receivedCount`. -/
def receivedCount (slot : RxSlot) (g : Globals) : Nat :=
  match slot with
  | RxSlot.d3n1 => g.destination3FromNode1Received
  | RxSlot.d3n2 => g.destination3FromNode2Received
  | RxSlot.d4n1 => g.destination4FromNode1Received
  | RxSlot.d4n2 => g.destination4FromNode2Received

/-- Assignment through `receivedCount`. -/
def setReceivedCount (slot : RxSlot) (v : Nat) (g : Globals) : Globals :=
  match slot with
  | RxSlot.d3n1 => { g with destination3FromNode1Received := v }
  | RxSlot.d3n2 => { g with destination3FromNode2Received := v }
  | RxSlot.d4n1 => { g with destination4FromNode1Received := v }
  | RxSlot.d4n2 => { g with destination4FromNode2Received := v }

/-- `*lostCount`. -/
def lostCount (slot : RxSlot) (g : Globals) : Nat :=
  match slot with
  | RxSlot.d3n1 => g.destination3FromNode1Lost
  | RxSlot.d3n2 => g.destination3FromNode2Lost
  | RxSlot.d4n1 => g.destination4FromNode1Lost
  | RxSlot.d4n2 => g.destination4FromNode2Lost

/-- Assignment through `lostCount`. -/
def setLostCount (slot : RxSlot) (v : Nat) (g : Globals) : Globals :=
  match slot with
  | RxSlot.d3n1 => { g with destination3FromNode1Lost := v }
  | RxSlot.d3n2 => { g with destination3FromNode2Lost := v }
  | RxSlot.d4n1 => { g with destination4FromNode1Lost := v }
  | RxSlot.d4n2 => { g with destination4FromNode2Lost := v }

/-- `*expectedIndex`: `expectedFromNode1` in the two branches for source 1,
`expectedFromNode2` in the other two. -/
def expectedIndex (slot : RxSlot) (l : RxLocal) : Nat :=
  match slot with
  | RxSlot.d3n1 => l.expectedFromNode1
  | RxSlot.d3n2 => l.expectedFromNode2
  | RxSlot.d4n1 => l.expectedFromNode1
  | RxSlot.d4n2 => l.expectedFromNode2

/-- Assignment through `expectedIndex`. -/
def setExpectedIndex (slot : RxSlot) (v : Nat) (l : RxLocal) : RxLocal :=
  match slot with
  | RxSlot.d3n1 => { l with expectedFromNode1 := v }
  | RxSlot.d3n2 => { l with expectedFromNode2 := v }
  | RxSlot.d4n1 => { l with expectedFromNode1 := v }
  | RxSlot.d4n2 => { l with expectedFromNode2 := v }

/-- Lines 237-266: the accounting for a frame whose `destinationId` is the receiver's
`nodeIdentity`. -/
def rxAccept (nodeIdentity : Nat) (frame : NetworkDataFrame) (g : Globals) (l : RxLocal) :
    Globals × RxLocal :=
  let slot := rxSlot nodeIdentity frame.sourceId
  let g1 := setReceivedCount slot (incU32 (receivedCount slot g)) g
  let g2 :=
    if frame.frameIndex ≠ expectedIndex slot l then
      let missedFrames := subU32 frame.frameIndex (expectedIndex slot l)
      setLostCount slot ((lostCount slot g1 + missedFrames) % U32) g1
    else g1
  (g2, setExpectedIndex slot (incU32 frame.frameIndex) l)

/-- The test of line 233: the frame is addressed to another node. -/
def addressMismatch (nodeIdentity : Nat) (frame : NetworkDataFrame) : Bool :=
  decide (frame.destinationId ≠ nodeIdentity)

/-- Lines 233-271: what a receiver does with one frame it took from its queue. -/
def receiveFrame (nodeIdentity : Nat) (frame : NetworkDataFrame) (g : Globals) (l : RxLocal) :
    Globals × RxLocal :=
  if addressMismatch nodeIdentity frame then (g, l)
  else rxAccept nodeIdentity frame g l

/-- A receiver consuming a list of frames in order. -/
def receiveFrames (nodeIdentity : Nat) :
    List NetworkDataFrame → Globals × RxLocal → Globals × RxLocal
  | [], st => st
  | frame :: rest, st =>
    receiveFrames nodeIdentity rest (receiveFrame nodeIdentity frame st.1 st.2)

/-- The frames of one source for one destination that carry the given sequence
numbers, in order. -/
def framesOf (sourceNode nodeIdentity : Nat) (seqs : List Nat) : List NetworkDataFrame :=
  seqs.map (fun i => ⟨nodeIdentity, sourceNode, i, NET_MAX_PAYLOAD_SIZE⟩)

/-! ## Router (`RouteNetworkFrame`) -/

/-- The two destination queues a frame can be forwarded to. -/
inductive TargetQueue where
  | destination3Queue
  | destination4Queue
  deriving DecidableEq, Repr

/-- Line 206: `(frame->destinationId == 3) ? destination3Queue : destination4Queue`. -/
def targetQueue (frame : NetworkDataFrame) : TargetQueue :=
  if frame.destinationId = 3 then TargetQueue.destination3Queue
  else TargetQueue.destination4Queue

/-- Line 228: the queue a receiver reads,
`(nodeIdentity == 3) ? destination3Queue : destination4Queue`. -/
def receiveQueue (nodeIdentity : Nat) : TargetQueue :=
  if nodeIdentity = 3 then TargetQueue.destination3Queue
  else TargetQueue.destination4Queue

/-- Line 200: the frame is dropped when `rand() % 100 < 1`. -/
def routerDrops (randValue : Nat) : Bool := decide (randValue % 100 < 1)

/-! ## The tasks together

The six tasks of `main` run interleaved.  A state holds the globals, the three
queues and what each task holds between two of its blocking calls; an action is
one task running from one blocking call to the next.  A send that returns `pdPASS`
needs a free slot in a queue of 1000 slots (lines 427-429); a send may fail in any
state, which covers every timing of the 100 ms timeouts. -/

/-- Slots of each queue, lines 427-429. -/
def queueCapacity : Nat := 1000

/-- Where a producer stands: at the loop test (line 72), inside the `do ... while`
before a call of `xQueueSend` with the frame and the current `retryCount`, or after
`vTaskSuspend(NULL)`. -/
inductive TxPc where
  | loopTop
  | sending (frame : NetworkDataFrame) (retryCount : Nat)
  | suspended
  deriving DecidableEq, Repr

/-- A producer task: its locals and where it stands. -/
structure TxTask where
  loc : TxLocal
  pc : TxPc
  deriving DecidableEq, Repr

/-- The state of the system. `router` is the frame the router has taken from the
central queue and not yet dropped or forwarded. -/
structure Sys where
  g : Globals
  centralQueue : List NetworkDataFrame
  destination3Queue : List NetworkDataFrame
  destination4Queue : List NetworkDataFrame
  tx1 : TxTask
  tx2 : TxTask
  router : Option NetworkDataFrame
  rx3 : RxLocal
  rx4 : RxLocal
  deriving DecidableEq, Repr

/-- The state when the scheduler starts. -/
def Sys.init : Sys :=
  { g := Globals.init, centralQueue := [], destination3Queue := [], destination4Queue := [],
    tx1 := ⟨⟨0, 0⟩, TxPc.loopTop⟩, tx2 := ⟨⟨0, 0⟩, TxPc.loopTop⟩, router := none,
    rx3 := ⟨0, 0⟩, rx4 := ⟨0, 0⟩ }

/-- The producer task with the given `nodeIdentity`. -/
def Sys.txTask (s : Sys) (nodeIdentity : Nat) : TxTask :=
  if nodeIdentity = 1 then s.tx1 else s.tx2

/-- Replace the producer task with the given `nodeIdentity`. -/
def Sys.setTxTask (s : Sys) (nodeIdentity : Nat) (t : TxTask) : Sys :=
  if nodeIdentity = 1 then { s with tx1 := t } else { s with tx2 := t }

/-- The locals of the receiver with the given `nodeIdentity`. -/
def Sys.rxLocal (s : Sys) (nodeIdentity : Nat) : RxLocal :=
  if nodeIdentity = 3 then s.rx3 else s.rx4

/-- The content of a destination queue. -/
def Sys.queueOf (s : Sys) (q : TargetQueue) : List NetworkDataFrame :=
  match q with
  | TargetQueue.destination3Queue => s.destination3Queue
  | TargetQueue.destination4Queue => s.destination4Queue

/-- Replace the content of a destination queue. -/
def Sys.setQueue (s : Sys) (q : TargetQueue) (frames : List NetworkDataFrame) : Sys :=
  match q with
  | TargetQueue.destination3Queue => { s with destination3Queue := frames }
  | TargetQueue.destination4Queue => { s with destination4Queue := frames }

/-- One task running between two blocking calls. -/
inductive Action where
  /-- Lines 73-78: `pvPortMalloc` returns `NULL`. -/
  | txAllocFail (nodeIdentity : Nat)
  /-- Lines 72-93: the loop test holds, a frame is allocated and numbered. -/
  | txBegin (nodeIdentity randValue : Nat)
  /-- Line 96 returns `pdPASS`; lines 115-120. -/
  | txSendOk (nodeIdentity : Nat)
  /-- Line 96 fails; lines 97-102 and, when the `do ... while` ends, lines 104-114. -/
  | txSendFail (nodeIdentity : Nat)
  /-- The loop test fails; lines 123-125. -/
  | txExit (nodeIdentity : Nat)
  /-- Line 199: the router takes the head of the central queue. -/
  | routerReceive
  /-- Lines 200-217 with the value of `rand()` and, when the frame is not dropped,
  whether `xQueueSend` returned `pdPASS`. -/
  | routerHandle (randValue : Nat) (forwardOk : Bool)
  /-- Lines 232-271 of the receiver with the given `nodeIdentity`. -/
  | rxReceive (nodeIdentity : Nat)
  deriving DecidableEq, Repr

/-- The effect of an action; `none` when the action cannot happen in the state. -/
def step (a : Action) (s : Sys) : Option Sys :=
  match a with
  | Action.txAllocFail nodeIdentity =>
    if (nodeIdentity = 1 ∨ nodeIdentity = 2) ∧ (s.txTask nodeIdentity).pc = TxPc.loopTop ∧
        txContinue (s.txTask nodeIdentity).loc = true then some s
    else none
  | Action.txBegin nodeIdentity randValue =>
    if (nodeIdentity = 1 ∨ nodeIdentity = 2) ∧ (s.txTask nodeIdentity).pc = TxPc.loopTop ∧
        txContinue (s.txTask nodeIdentity).loc = true then
      let (frame, g, l) := txAssign nodeIdentity randValue s.g (s.txTask nodeIdentity).loc
      some (Sys.setTxTask { s with g := g } nodeIdentity ⟨l, TxPc.sending frame 3⟩)
    else none
  | Action.txSendOk nodeIdentity =>
    if nodeIdentity = 1 ∨ nodeIdentity = 2 then
      match (s.txTask nodeIdentity).pc with
      | TxPc.sending frame _ =>
        if s.centralQueue.length < queueCapacity then
          some (Sys.setTxTask { s with centralQueue := s.centralQueue ++ [frame] } nodeIdentity
            ⟨(s.txTask nodeIdentity).loc, TxPc.loopTop⟩)
        else none
      | _ => none
    else none
  | Action.txSendFail nodeIdentity =>
    if nodeIdentity = 1 ∨ nodeIdentity = 2 then
      match (s.txTask nodeIdentity).pc with
      | TxPc.sending frame retryCount =>
        if 0 < retryCount - 1 then
          some (s.setTxTask nodeIdentity
            ⟨(s.txTask nodeIdentity).loc, TxPc.sending frame (retryCount - 1)⟩)
        else
          let (g, l) := txRollback nodeIdentity frame s.g (s.txTask nodeIdentity).loc
          some (Sys.setTxTask { s with g := g } nodeIdentity ⟨l, TxPc.loopTop⟩)
      | _ => none
    else none
  | Action.txExit nodeIdentity =>
    if (nodeIdentity = 1 ∨ nodeIdentity = 2) ∧ (s.txTask nodeIdentity).pc = TxPc.loopTop ∧
        txContinue (s.txTask nodeIdentity).loc = false then
      let g :=
        if 1000 ≤ (s.txTask nodeIdentity).loc.sentTo3 ∧
            1000 ≤ (s.txTask nodeIdentity).loc.sentTo4 then
          { s.g with analyticsComplete := true }
        else s.g
      some (Sys.setTxTask { s with g := g } nodeIdentity
        ⟨(s.txTask nodeIdentity).loc, TxPc.suspended⟩)
    else none
  | Action.routerReceive =>
    match s.router, s.centralQueue with
    | none, frame :: rest => some { s with centralQueue := rest, router := some frame }
    | _, _ => none
  | Action.routerHandle randValue forwardOk =>
    match s.router with
    | some frame =>
      if routerDrops randValue then some { s with router := none }
      else if forwardOk then
        if (s.queueOf (targetQueue frame)).length < queueCapacity then
          some (Sys.setQueue { s with router := none } (targetQueue frame)
            (s.queueOf (targetQueue frame) ++ [frame]))
        else none
      else some { s with router := none }
    | none => none
  | Action.rxReceive nodeIdentity =>
    if nodeIdentity = 3 ∨ nodeIdentity = 4 then
      match s.queueOf (receiveQueue nodeIdentity) with
      | frame :: rest =>
        let (g, l) := receiveFrame nodeIdentity frame s.g (s.rxLocal nodeIdentity)
        let s1 := Sys.setQueue { s with g := g } (receiveQueue nodeIdentity) rest
        some (if nodeIdentity = 3 then { s1 with rx3 := l } else { s1 with rx4 := l })
      | [] => none
    else none

/-- Run a list of actions; `none` when one of them cannot happen. -/
def runActions : List Action → Sys → Option Sys
  | [], s => some s
  | a :: rest, s =>
    match step a s with
    | some s1 => runActions rest s1
    | none => none

/-- The states the system can be in. -/
inductive Reachable : Sys → Prop where
  | init : Reachable Sys.init
  | step (a : Action) (s s1 : Sys) : Reachable s → step a s = some s1 → Reachable s1

/-- The sent counter of a (source, destination) pair. -/
def Sys.sent (s : Sys) (sourceNode nodeIdentity : Nat) : Nat :=
  sentCounter sourceNode nodeIdentity s.g

/-- The received counter of a (source, destination) pair. -/
def Sys.received (s : Sys) (sourceNode nodeIdentity : Nat) : Nat :=
  receivedCount (rxSlot nodeIdentity sourceNode) s.g

/-- The lost counter of a (source, destination) pair. -/
def Sys.lost (s : Sys) (sourceNode nodeIdentity : Nat) : Nat :=
  lostCount (rxSlot nodeIdentity sourceNode) s.g

/-! ## Invariant of the system -/

/-- The frame belongs to the (source, destination) pair. -/
def isPair (sourceNode nodeIdentity : Nat) (f : NetworkDataFrame) : Bool :=
  decide (f.sourceId = sourceNode) && decide (f.destinationId = nodeIdentity)

/-- The expected-next cursor a receiver keeps for a source. -/
def Sys.cursor (s : Sys) (sourceNode nodeIdentity : Nat) : Nat :=
  expectedIndex (rxSlot nodeIdentity sourceNode) (s.rxLocal nodeIdentity)

/-- The frames on their way to a receiver, oldest first: its queue, then the frame the
router holds, then the central queue. -/
def Sys.pipeline (s : Sys) (nodeIdentity : Nat) : List NetworkDataFrame :=
  s.queueOf (receiveQueue nodeIdentity) ++ s.router.toList ++ s.centralQueue

/-- The sequence numbers of a pair that are on their way, oldest first. -/
def Sys.flight (s : Sys) (sourceNode nodeIdentity : Nat) : List Nat :=
  ((s.pipeline nodeIdentity).filter (isPair sourceNode nodeIdentity)).map
    (fun f => f.frameIndex)

/-- The number of frames of a pair that the producer has put on the central queue: the
sent counter, less the frame the producer is still trying to send. -/
def Sys.committed (s : Sys) (sourceNode nodeIdentity : Nat) : Nat :=
  match (s.txTask sourceNode).pc with
  | TxPc.sending frame _ =>
    if frame.destinationId = nodeIdentity then frame.frameIndex
    else s.sent sourceNode nodeIdentity
  | _ => s.sent sourceNode nodeIdentity

/-- A frame made by a producer: source 1 or 2, destination 3 or 4. -/
def wellAddressed (f : NetworkDataFrame) : Prop :=
  (f.sourceId = 1 ∨ f.sourceId = 2) ∧ (f.destinationId = 3 ∨ f.destinationId = 4)

/-- What holds of a producer task in every reachable state. -/
structure TxOk (s : Sys) (sourceNode : Nat) : Prop where
  c3 : s.sent sourceNode 3 = (s.txTask sourceNode).loc.sentTo3
  c4 : s.sent sourceNode 4 = (s.txTask sourceNode).loc.sentTo4
  b3 : (s.txTask sourceNode).loc.sentTo3 ≤ 1000
  b4 : (s.txTask sourceNode).loc.sentTo4 ≤ 1000
  top : (s.txTask sourceNode).pc = TxPc.loopTop →
    (s.txTask sourceNode).loc.sentTo3 < 1000 ∨ (s.txTask sourceNode).loc.sentTo4 < 1000
  snd : ∀ frame retryCount, (s.txTask sourceNode).pc = TxPc.sending frame retryCount →
    frame.sourceId = sourceNode ∧
    ((frame.destinationId = 3 ∧ (s.txTask sourceNode).loc.sentTo3 = frame.frameIndex + 1 ∧
        (s.txTask sourceNode).loc.sentTo4 < 1000) ∨
      (frame.destinationId = 4 ∧ (s.txTask sourceNode).loc.sentTo4 = frame.frameIndex + 1 ∧
        (s.txTask sourceNode).loc.sentTo3 < 1000))

/-- What holds of a (source, destination) pair in every reachable state. -/
structure PairOk (s : Sys) (sourceNode nodeIdentity : Nat) : Prop where
  sum : s.received sourceNode nodeIdentity + s.lost sourceNode nodeIdentity
    = s.cursor sourceNode nodeIdentity
  sorted : (s.flight sourceNode nodeIdentity).Pairwise (fun a b => a < b)
  range : ∀ x ∈ s.flight sourceNode nodeIdentity,
    s.cursor sourceNode nodeIdentity ≤ x ∧ x < s.committed sourceNode nodeIdentity
  cur : s.cursor sourceNode nodeIdentity ≤ s.committed sourceNode nodeIdentity
  com : s.committed sourceNode nodeIdentity ≤ s.sent sourceNode nodeIdentity

/-- The invariant of the system. -/
structure SysInv (s : Sys) : Prop where
  q3 : ∀ f ∈ s.destination3Queue, wellAddressed f ∧ f.destinationId = 3
  q4 : ∀ f ∈ s.destination4Queue, wellAddressed f ∧ f.destinationId = 4
  qr : ∀ f ∈ s.router.toList, wellAddressed f
  qc : ∀ f ∈ s.centralQueue, wellAddressed f
  flag : s.g.analyticsComplete = false
  tx : ∀ sourceNode, sourceNode = 1 ∨ sourceNode = 2 → TxOk s sourceNode
  pair : ∀ sourceNode nodeIdentity, sourceNode = 1 ∨ sourceNode = 2 →
    nodeIdentity = 3 ∨ nodeIdentity = 4 → PairOk s sourceNode nodeIdentity

/-- Producer invariant at the loop test when a producer runs on its own. -/
structure TxInv (n : Nat) (s : TxState) : Prop where
  c3 : sentCounter n 3 s.g = s.loc.sentTo3
  c4 : sentCounter n 4 s.g = s.loc.sentTo4
  q3 : ((s.centralQueue.filter (fun f => f.destinationId = 3)).map (fun f => f.frameIndex))
        = List.range s.loc.sentTo3
  q4 : ((s.centralQueue.filter (fun f => f.destinationId = 4)).map (fun f => f.frameIndex))
        = List.range s.loc.sentTo4
  b3 : s.loc.sentTo3 ≤ 1000
  b4 : s.loc.sentTo4 ≤ 1000
  one : s.loc.sentTo3 < 1000 ∨ s.loc.sentTo4 < 1000
  flag : s.g.analyticsComplete = false

/-- A run of the system used as an example: node 1 sends sequence numbers 0, 1, 2 to
node 3 (one more frame is given up after three failed sends and rolled back), the
router forwards 0, drops 1 and forwards 2, and receiver 3 takes the first of them. -/
def demoActions : List Action :=
  [Action.txBegin 1 1, Action.txSendOk 1, Action.txBegin 1 7, Action.txSendFail 1,
   Action.txSendFail 1, Action.txSendFail 1, Action.txBegin 1 3, Action.txSendOk 1,
   Action.txBegin 1 5, Action.txSendOk 1, Action.routerReceive, Action.routerHandle 5 true,
   Action.routerReceive, Action.routerHandle 100 true, Action.routerReceive,
   Action.routerHandle 5 true, Action.rxReceive 3]

/-- The state after `demoActions`. -/
def demoState : Sys :=
  { g := ⟨3, 0, 0, 0, 1, 0, 0, 0, 0, 0, 0, 0, false⟩, centralQueue := [],
    destination3Queue := [⟨3, 1, 2, 1000⟩], destination4Queue := [],
    tx1 := ⟨⟨3, 0⟩, TxPc.loopTop⟩, tx2 := ⟨⟨0, 0⟩, TxPc.loopTop⟩, router := none,
    rx3 := ⟨1, 0⟩, rx4 := ⟨0, 0⟩ }

/-! ## Analytics (`GenerateNetworkAnalytics`) -/

/-- Unsigned division `a / b`; `none` stands for a division by zero. -/
def divU32 (a b : Nat) : Option Nat :=
  if b = 0 then none else some (a / b)

/-- The expression `sent ? (count * 100) / sent : 0` of lines 312-324, 353-376 and
387-389, on `uint32_t` operands. -/
def percentage (count sent : Nat) : Option Nat :=
  if sent ≠ 0 then divU32 ((count * 100) % U32) sent else some 0

/-- The numbers of one line of the status table (lines 310-325). -/
structure StatusRow where
  node : Nat
  source : Nat
  sent : Nat
  recv : Nat
  recvPct : Option Nat
  lost : Nat
  deriving DecidableEq, Repr

/-- The four lines of the status table, lines 310-325. -/
def statusTable (g : Globals) : List StatusRow :=
  [ ⟨3, 1, g.networkNode1To3Count, g.destination3FromNode1Received,
      percentage g.destination3FromNode1Received g.networkNode1To3Count,
      g.destination3FromNode1Lost⟩,
    ⟨3, 2, g.networkNode2To3Count, g.destination3FromNode2Received,
      percentage g.destination3FromNode2Received g.networkNode2To3Count,
      g.destination3FromNode2Lost⟩,
    ⟨4, 1, g.networkNode1To4Count, g.destination4FromNode1Received,
      percentage g.destination4FromNode1Received g.networkNode1To4Count,
      g.destination4FromNode1Lost⟩,
    ⟨4, 2, g.networkNode2To4Count, g.destination4FromNode2Received,
      percentage g.destination4FromNode2Received g.networkNode2To4Count,
      g.destination4FromNode2Lost⟩ ]

/-- The locals `lastReported*` of lines 282-283. -/
structure Markers where
  lastReportedNode1To3 : Nat
  lastReportedNode1To4 : Nat
  lastReportedNode2To3 : Nat
  lastReportedNode2To4 : Nat
  deriving DecidableEq, Repr

/-- The test `count >= lastReported + 100 || count >= 1000` of lines 287-299; the sum
is a `uint32_t` sum. -/
def crossed (count lastReported : Nat) : Bool :=
  decide ((lastReported + 100) % U32 ≤ count) || decide (1000 ≤ count)

/-- The new marker `(count / 100) * 100` of lines 288-300; it is at most `count`, so
the product does not wrap. -/
def floorHundred (count : Nat) : Nat := (count / 100) * 100

/-- What one pass of the loop of lines 285-330 does: the markers after lines 287-302,
`shouldReport`, and the table when one is printed (lines 304-327). -/
structure PollResult where
  markers : Markers
  shouldReport : Bool
  table : Option (List StatusRow)
  deriving DecidableEq, Repr

/-- Lines 286-302: the four threshold tests in order, each updating its marker and
setting `shouldReport` when it holds. The result is the markers and `shouldReport`. -/
def thresholdChecks (g : Globals) (m : Markers) : Markers × Bool :=
  let r0 : Markers × Bool := (m, false)
  let r1 : Markers × Bool :=
    if crossed g.networkNode1To3Count r0.1.lastReportedNode1To3 then
      ({ r0.1 with lastReportedNode1To3 := floorHundred g.networkNode1To3Count }, true)
    else r0
  let r2 : Markers × Bool :=
    if crossed g.networkNode1To4Count r1.1.lastReportedNode1To4 then
      ({ r1.1 with lastReportedNode1To4 := floorHundred g.networkNode1To4Count }, true)
    else r1
  let r3 : Markers × Bool :=
    if crossed g.networkNode2To3Count r2.1.lastReportedNode2To3 then
      ({ r2.1 with lastReportedNode2To3 := floorHundred g.networkNode2To3Count }, true)
    else r2
  if crossed g.networkNode2To4Count r3.1.lastReportedNode2To4 then
    ({ r3.1 with lastReportedNode2To4 := floorHundred g.networkNode2To4Count }, true)
  else r3

/-- One pass of the `while (!analyticsComplete)` loop, lines 286-327: the threshold
tests, then the table when `shouldReport` is set. -/
def reportingPoll (g : Globals) (m : Markers) : PollResult :=
  ⟨(thresholdChecks g m).1, (thresholdChecks g m).2,
    if (thresholdChecks g m).2 then some (statusTable g) else none⟩

/-- The globals once node 1 has sent 1000 frames to node 3 and nothing else has
happened to the other counters. -/
def globalsAt1000 : Globals := ⟨1000, 0, 0, 0, 0, 0, 0, 0, 0, 0, 0, 0, false⟩

/-- The markers after a poll has seen `globalsAt1000`. -/
def markersAt1000 : Markers := ⟨1000, 0, 0, 0⟩

/-! ## Analytics in its Reporting loop beside the other tasks

While `analyticsComplete` is false, Analytics runs the loop of lines 285-330.  One pass
reads the global counters and updates its `lastReported*` locals; it is taken as one
action on the counters of the state it runs in. -/

/-- The state of the other tasks together with the `lastReported*` locals of
Analytics (lines 282-283). -/
structure ReportingSys where
  sys : Sys
  markers : Markers
  deriving DecidableEq, Repr

/-- The state when the scheduler starts: every marker is 0 (lines 282-283). -/
def ReportingSys.init : ReportingSys := ⟨Sys.init, ⟨0, 0, 0, 0⟩⟩

/-- An action of one of the other tasks, or one pass of the Reporting loop. -/
inductive ReportingAction where
  | task (a : Action)
  | poll
  deriving DecidableEq, Repr

/-- The effect of an action. A pass of the loop needs `analyticsComplete` to be false
(line 285) and leaves the markers computed at lines 287-302. -/
def reportingStep (a : ReportingAction) (st : ReportingSys) : Option ReportingSys :=
  match a with
  | ReportingAction.task b =>
    match step b st.sys with
    | some s1 => some ⟨s1, st.markers⟩
    | none => none
  | ReportingAction.poll =>
    if st.sys.g.analyticsComplete = false then
      some ⟨st.sys, (reportingPoll st.sys.g st.markers).markers⟩
    else none

/-- Run a list of actions; `none` when one of them cannot happen. -/
def runReporting : List ReportingAction → ReportingSys → Option ReportingSys
  | [], st => some st
  | a :: rest, st =>
    match reportingStep a st with
    | some st1 => runReporting rest st1
    | none => none

/-- The states in which a pass of the Reporting loop can start. -/
inductive ReportingReachable : ReportingSys → Prop where
  | init : ReportingReachable ReportingSys.init
  | step (a : ReportingAction) (st st1 : ReportingSys) :
      ReportingReachable st → reportingStep a st = some st1 → ReportingReachable st1

/-- A run used as an example: node 1 sends 100 frames to node 3, each accepted at the
first attempt. -/
def hundredSends : List ReportingAction :=
  (List.replicate 100
    [ReportingAction.task (Action.txBegin 1 1), ReportingAction.task (Action.txSendOk 1)]).flatten

/-- The state after `hundredSends`: the sent counter of the pair (1, 3) is 100, the
markers are still 0. -/
def stateAfterHundred : ReportingSys :=
  { sys :=
      { g := ⟨100, 0, 0, 0, 0, 0, 0, 0, 0, 0, 0, 0, false⟩,
        centralQueue := (List.range 100).map (fun i => ⟨3, 1, i, 1000⟩),
        destination3Queue := [], destination4Queue := [],
        tx1 := ⟨⟨100, 0⟩, TxPc.loopTop⟩, tx2 := ⟨⟨0, 0⟩, TxPc.loopTop⟩, router := none,
        rx3 := ⟨0, 0⟩, rx4 := ⟨0, 0⟩ },
    markers := ⟨0, 0, 0, 0⟩ }

/-! # Theorems -/

/-! ### Machine arithmetic and the producer loop -/

theorem decU32_incU32 (x : Nat) (h : x < U32) : decU32 (incU32 x) = x := by
  unfold decU32 incU32 U32 at *
  omega

theorem incU32_small (x : Nat) (h : x < 1000) : incU32 x = x + 1 := by
  unfold incU32 U32
  omega

theorem sentCounter_set_same (n d v : Nat) (g : Globals) :
    sentCounter n d (setSentCounter n d v g) = v := by
  unfold sentCounter setSentCounter
  split <;> split <;> simp_all

theorem sentCounter_set_3_4 (n v : Nat) (g : Globals) :
    sentCounter n 3 (setSentCounter n 4 v g) = sentCounter n 3 g := by
  unfold sentCounter setSentCounter
  split <;> simp_all

theorem sentCounter_set_4_3 (n v : Nat) (g : Globals) :
    sentCounter n 4 (setSentCounter n 3 v g) = sentCounter n 4 g := by
  unfold sentCounter setSentCounter
  split <;> simp_all

theorem setSentCounter_flag (n d v : Nat) (g : Globals) :
    (setSentCounter n d v g).analyticsComplete = g.analyticsComplete := by
  unfold setSentCounter
  split <;> split <;> rfl

theorem setSentCounter_self (n d : Nat) (g : Globals) :
    setSentCounter n d (sentCounter n d g) g = g := by
  unfold sentCounter setSentCounter
  split <;> split <;> rfl

theorem setSentCounter_twice (n d v w : Nat) (g : Globals) :
    setSentCounter n d w (setSentCounter n d v g) = setSentCounter n d w g := by
  unfold setSentCounter
  split <;> split <;> rfl

theorem sendLoop_status_false (q : Nat → Bool) (h : ∀ k, q k = false) :
    ∀ rc a b, (sendLoop q rc a b).sendStatus = false := by
  intro rc
  induction rc with
  | zero => intro a b; simp [sendLoop, h]
  | succ r ih =>
    intro a b
    simp only [sendLoop, h]
    simp
    split
    · exact ih _ _
    · rfl

theorem txAssign_odd (n r : Nat) (g : Globals) (l : TxLocal) (hr : r % 2 ≠ 0) :
    txAssign n r g l =
      (⟨3, n, sentCounter n 3 g, NET_MAX_PAYLOAD_SIZE⟩,
        setSentCounter n 3 (incU32 (sentCounter n 3 g)) g,
        { l with sentTo3 := incU32 l.sentTo3 }) := by
  simp [txAssign, hr]

theorem txAssign_even (n r : Nat) (g : Globals) (l : TxLocal) (hr : r % 2 = 0) :
    txAssign n r g l =
      (⟨4, n, sentCounter n 4 g, NET_MAX_PAYLOAD_SIZE⟩,
        setSentCounter n 4 (incU32 (sentCounter n 4 g)) g,
        { l with sentTo4 := incU32 l.sentTo4 }) := by
  simp [txAssign, hr]

theorem transmitIteration_fail (n : Nat) (inp : TxInput) (s : TxState)
    (hs : (sendWithRetry inp.xQueueSend).sendStatus = false)
    (h3 : sentCounter n 3 s.g < U32) (h4 : sentCounter n 4 s.g < U32)
    (l3 : s.loc.sentTo3 < U32) (l4 : s.loc.sentTo4 < U32) :
    transmitIteration n inp s = s := by
  unfold transmitIteration
  split
  · rfl
  · by_cases hr : inp.randValue % 2 = 0
    · simp [hs, txAssign_even _ _ _ _ hr, txRollback, sentCounter_set_same,
        setSentCounter_twice, decU32_incU32, h4, l4, setSentCounter_self]
    · simp [hs, txAssign_odd _ _ _ _ hr, txRollback, sentCounter_set_same,
        setSentCounter_twice, decU32_incU32, h3, l3, setSentCounter_self]

theorem transmitIteration_ok (n : Nat) (inp : TxInput) (s : TxState)
    (ha : inp.allocOk = true)
    (hs : (sendWithRetry inp.xQueueSend).sendStatus = true) :
    transmitIteration n inp s =
      ⟨(txAssign n inp.randValue s.g s.loc).2.1, (txAssign n inp.randValue s.g s.loc).2.2,
        s.centralQueue ++ [(txAssign n inp.randValue s.g s.loc).1]⟩ := by
  simp [transmitIteration, ha, hs]

theorem txInv_at_start (n : Nat) : TxInv n TxState.init := by
  constructor <;> simp [TxState.init, Globals.init, sentCounter]

theorem TxInv.iteration (n : Nat) (inp : TxInput) (s : TxState) (h : TxInv n s)
    (hc : txContinue s.loc = true) : TxInv n (transmitIteration n inp s) := by
  have hlt : s.loc.sentTo3 < 1000 ∧ s.loc.sentTo4 < 1000 := by
    simpa [txContinue] using hc
  have hU : (1000 : Nat) < U32 := by unfold U32; omega
  cases hs : (sendWithRetry inp.xQueueSend).sendStatus with
  | false =>
    rw [transmitIteration_fail n inp s hs (by rw [h.c3]; omega) (by rw [h.c4]; omega)
      (by omega) (by omega)]
    exact h
  | true =>
    cases ha : inp.allocOk with
    | false => simpa [transmitIteration, ha] using h
    | true =>
      rw [transmitIteration_ok n inp s ha hs]
      by_cases hr : inp.randValue % 2 = 0
      · rw [txAssign_even _ _ _ _ hr]
        constructor <;>
          simp [sentCounter_set_same, sentCounter_set_3_4, setSentCounter_flag, h.c3, h.c4,
            h.q3, h.q4, List.filter_append, incU32_small _ hlt.2, List.range_succ, h.flag]
        all_goals omega
      · rw [txAssign_odd _ _ _ _ hr]
        constructor <;>
          simp [sentCounter_set_same, sentCounter_set_4_3, setSentCounter_flag, h.c3, h.c4,
            h.q3, h.q4, List.filter_append, incU32_small _ hlt.1, List.range_succ, h.flag]
        all_goals omega

theorem transmitLoop_some (n : Nat) (inputs : List TxInput) :
    ∀ s st, TxInv n s → transmitLoop n inputs s = some st →
      TxInv n st ∧ txContinue st.loc = false := by
  induction inputs with
  | nil =>
    intro s st h hl
    unfold transmitLoop at hl
    split at hl
    · simp at hl
    · next hc => 
      simp at hl hc
      subst hl
      exact ⟨h, by simpa using hc⟩
  | cons inp rest ih =>
    intro s st h hl
    unfold transmitLoop at hl
    split at hl
    · next hc => exact ih _ _ (TxInv.iteration n inp s h hc) hl
    · next hc =>
      simp at hl
      subst hl
      exact ⟨h, by simpa using hc⟩

/-! ### Accessors under updates -/

@[simp]
theorem setTxTask_g (s : Sys) (n : Nat) (t : TxTask) : (s.setTxTask n t).g = s.g := by
  unfold Sys.setTxTask; split <;> rfl

@[simp]
theorem setTxTask_centralQueue (s : Sys) (n : Nat) (t : TxTask) :
    (s.setTxTask n t).centralQueue = s.centralQueue := by
  unfold Sys.setTxTask; split <;> rfl

@[simp]
theorem setTxTask_destination3Queue (s : Sys) (n : Nat) (t : TxTask) :
    (s.setTxTask n t).destination3Queue = s.destination3Queue := by
  unfold Sys.setTxTask; split <;> rfl

@[simp]
theorem setTxTask_destination4Queue (s : Sys) (n : Nat) (t : TxTask) :
    (s.setTxTask n t).destination4Queue = s.destination4Queue := by
  unfold Sys.setTxTask; split <;> rfl

@[simp]
theorem setTxTask_router (s : Sys) (n : Nat) (t : TxTask) :
    (s.setTxTask n t).router = s.router := by
  unfold Sys.setTxTask; split <;> rfl

@[simp]
theorem setTxTask_rx3 (s : Sys) (n : Nat) (t : TxTask) :
    (s.setTxTask n t).rx3 = s.rx3 := by
  unfold Sys.setTxTask; split <;> rfl

@[simp]
theorem setTxTask_rx4 (s : Sys) (n : Nat) (t : TxTask) :
    (s.setTxTask n t).rx4 = s.rx4 := by
  unfold Sys.setTxTask; split <;> rfl

@[simp]
theorem txTask_setTxTask_same (s : Sys) (n : Nat) (t : TxTask) :
    (s.setTxTask n t).txTask n = t := by
  unfold Sys.setTxTask Sys.txTask; split <;> simp_all

theorem txTask_setTxTask_other (s : Sys) (n m : Nat) (t : TxTask)
    (hn : n = 1 ∨ n = 2) (hm : m = 1 ∨ m = 2) (hne : m ≠ n) :
    (s.setTxTask n t).txTask m = s.txTask m := by
  unfold Sys.setTxTask Sys.txTask
  rcases hn with rfl | rfl <;> rcases hm with rfl | rfl <;> simp_all

@[simp]
theorem setQueue_g (s : Sys) (q : TargetQueue) (fs : List NetworkDataFrame) :
    (s.setQueue q fs).g = s.g := by
  cases q <;> rfl

@[simp]
theorem setQueue_centralQueue (s : Sys) (q : TargetQueue) (fs : List NetworkDataFrame) :
    (s.setQueue q fs).centralQueue = s.centralQueue := by
  cases q <;> rfl

@[simp]
theorem setQueue_router (s : Sys) (q : TargetQueue) (fs : List NetworkDataFrame) :
    (s.setQueue q fs).router = s.router := by
  cases q <;> rfl

@[simp]
theorem setQueue_rx3 (s : Sys) (q : TargetQueue) (fs : List NetworkDataFrame) :
    (s.setQueue q fs).rx3 = s.rx3 := by
  cases q <;> rfl

@[simp]
theorem setQueue_rx4 (s : Sys) (q : TargetQueue) (fs : List NetworkDataFrame) :
    (s.setQueue q fs).rx4 = s.rx4 := by
  cases q <;> rfl

@[simp]
theorem setQueue_tx1 (s : Sys) (q : TargetQueue) (fs : List NetworkDataFrame) :
    (s.setQueue q fs).tx1 = s.tx1 := by
  cases q <;> rfl

@[simp]
theorem setQueue_tx2 (s : Sys) (q : TargetQueue) (fs : List NetworkDataFrame) :
    (s.setQueue q fs).tx2 = s.tx2 := by
  cases q <;> rfl

@[simp]
theorem queueOf_setQueue_same (s : Sys) (q : TargetQueue) (fs : List NetworkDataFrame) :
    (s.setQueue q fs).queueOf q = fs := by
  cases q <;> rfl

theorem queueOf_setQueue_other (s : Sys) (q r : TargetQueue) (fs : List NetworkDataFrame)
    (h : r ≠ q) : (s.setQueue q fs).queueOf r = s.queueOf r := by
  cases q <;> cases r <;> first | rfl | exact absurd rfl h

@[simp]
theorem receivedCount_setSentCounter (slot : RxSlot) (n d v : Nat) (g : Globals) :
    receivedCount slot (setSentCounter n d v g) = receivedCount slot g := by
  unfold setSentCounter; cases slot <;> split <;> split <;> rfl

@[simp]
theorem lostCount_setSentCounter (slot : RxSlot) (n d v : Nat) (g : Globals) :
    lostCount slot (setSentCounter n d v g) = lostCount slot g := by
  unfold setSentCounter; cases slot <;> split <;> split <;> rfl

@[simp]
theorem sentCounter_setReceivedCount (slot : RxSlot) (n d v : Nat) (g : Globals) :
    sentCounter n d (setReceivedCount slot v g) = sentCounter n d g := by
  unfold sentCounter; cases slot <;> rfl

@[simp]
theorem sentCounter_setLostCount (slot : RxSlot) (n d v : Nat) (g : Globals) :
    sentCounter n d (setLostCount slot v g) = sentCounter n d g := by
  unfold sentCounter; cases slot <;> rfl

@[simp]
theorem flag_setReceivedCount (slot : RxSlot) (v : Nat) (g : Globals) :
    (setReceivedCount slot v g).analyticsComplete = g.analyticsComplete := by
  cases slot <;> rfl

@[simp]
theorem flag_setLostCount (slot : RxSlot) (v : Nat) (g : Globals) :
    (setLostCount slot v g).analyticsComplete = g.analyticsComplete := by
  cases slot <;> rfl

@[simp]
theorem receivedCount_setReceivedCount_same (slot : RxSlot) (v : Nat) (g : Globals) :
    receivedCount slot (setReceivedCount slot v g) = v := by
  cases slot <;> rfl

theorem receivedCount_setReceivedCount_other (slot slot1 : RxSlot) (v : Nat) (g : Globals)
    (h : slot1 ≠ slot) : receivedCount slot1 (setReceivedCount slot v g) = receivedCount slot1 g := by
  cases slot <;> cases slot1 <;> first | rfl | exact absurd rfl h

@[simp]
theorem lostCount_setLostCount_same (slot : RxSlot) (v : Nat) (g : Globals) :
    lostCount slot (setLostCount slot v g) = v := by
  cases slot <;> rfl

theorem lostCount_setLostCount_other (slot slot1 : RxSlot) (v : Nat) (g : Globals)
    (h : slot1 ≠ slot) : lostCount slot1 (setLostCount slot v g) = lostCount slot1 g := by
  cases slot <;> cases slot1 <;> first | rfl | exact absurd rfl h

@[simp]
theorem lostCount_setReceivedCount (slot slot1 : RxSlot) (v : Nat) (g : Globals) :
    lostCount slot1 (setReceivedCount slot v g) = lostCount slot1 g := by
  cases slot <;> cases slot1 <;> rfl

@[simp]
theorem receivedCount_setLostCount (slot slot1 : RxSlot) (v : Nat) (g : Globals) :
    receivedCount slot1 (setLostCount slot v g) = receivedCount slot1 g := by
  cases slot <;> cases slot1 <;> rfl

@[simp]
theorem expectedIndex_setExpectedIndex_same (slot : RxSlot) (v : Nat) (l : RxLocal) :
    expectedIndex slot (setExpectedIndex slot v l) = v := by
  cases slot <;> rfl

theorem sentCounter_set_other_source (n m d e v : Nat) (g : Globals)
    (hn : n = 1 ∨ n = 2) (hm : m = 1 ∨ m = 2) (hne : m ≠ n) :
    sentCounter m e (setSentCounter n d v g) = sentCounter m e g := by
  unfold sentCounter setSentCounter
  rcases hn with rfl | rfl <;> rcases hm with rfl | rfl <;>
    first | exact absurd rfl hne | (simp; split_ifs <;> rfl)

theorem sentCounter_set_other_dest (n d e v : Nat) (g : Globals)
    (hd : d = 3 ∨ d = 4) (he : e = 3 ∨ e = 4) (hne : e ≠ d) :
    sentCounter n e (setSentCounter n d v g) = sentCounter n e g := by
  unfold sentCounter setSentCounter
  rcases hd with rfl | rfl <;> rcases he with rfl | rfl <;>
    first | exact absurd rfl hne | (simp; split_ifs <;> rfl)

theorem txAssign_cases (n r : Nat) (g : Globals) (l : TxLocal) :
    ∃ d, (d = 3 ∨ d = 4) ∧ txAssign n r g l =
      (⟨d, n, sentCounter n d g, NET_MAX_PAYLOAD_SIZE⟩,
        setSentCounter n d (incU32 (sentCounter n d g)) g,
        if d = 3 then { l with sentTo3 := incU32 l.sentTo3 }
        else { l with sentTo4 := incU32 l.sentTo4 }) := by
  by_cases hr : r % 2 = 0
  · exact ⟨4, Or.inr rfl, by simp [txAssign_even _ _ _ _ hr]⟩
  · exact ⟨3, Or.inl rfl, by simp [txAssign_odd _ _ _ _ hr]⟩

theorem flight_congr (s s1 : Sys) (src dst : Nat)
    (h3 : s1.destination3Queue = s.destination3Queue)
    (h4 : s1.destination4Queue = s.destination4Queue)
    (hr : s1.router = s.router) (hc : s1.centralQueue = s.centralQueue) :
    s1.flight src dst = s.flight src dst := by
  unfold Sys.flight Sys.pipeline Sys.queueOf
  rw [hr, hc]
  cases receiveQueue dst <;> simp [h3, h4]

theorem cursor_congr (s s1 : Sys) (src dst : Nat)
    (h3 : s1.rx3 = s.rx3) (h4 : s1.rx4 = s.rx4) :
    s1.cursor src dst = s.cursor src dst := by
  unfold Sys.cursor Sys.rxLocal
  rw [h3, h4]

theorem PairOk.of_sublist {s s1 : Sys} {src dst : Nat} (h : PairOk s src dst)
    (hr : s1.received src dst = s.received src dst)
    (hl : s1.lost src dst = s.lost src dst)
    (hcur : s1.cursor src dst = s.cursor src dst)
    (hf : (s1.flight src dst).Sublist (s.flight src dst))
    (hcm : s1.committed src dst = s.committed src dst)
    (hsent : s1.committed src dst ≤ s1.sent src dst) : PairOk s1 src dst := by
  refine ⟨by rw [hr, hl, hcur]; exact h.sum, h.sorted.sublist hf, ?_, by rw [hcur, hcm]; exact h.cur,
    hsent⟩
  intro x hx
  rw [hcur, hcm]
  exact h.range x (hf.subset hx)

theorem SysInv.txBegin (s : Sys) (h : SysInv s) (n r : Nat) (hn : n = 1 ∨ n = 2)
    (hpc : (s.txTask n).pc = TxPc.loopTop) (hc : txContinue (s.txTask n).loc = true) :
    SysInv (Sys.setTxTask { s with g := (txAssign n r s.g (s.txTask n).loc).2.1 } n
      ⟨(txAssign n r s.g (s.txTask n).loc).2.2,
        TxPc.sending (txAssign n r s.g (s.txTask n).loc).1 3⟩) := by
  obtain ⟨d, hd, ha⟩ := txAssign_cases n r s.g (s.txTask n).loc
  rw [ha]
  have hlt : (s.txTask n).loc.sentTo3 < 1000 ∧ (s.txTask n).loc.sentTo4 < 1000 := by
    simpa [txContinue] using hc
  have ht := h.tx n hn
  have e3 := ht.c3
  have e4 := ht.c4
  simp only [Sys.sent] at e3 e4
  refine ⟨by simpa using h.q3, by simpa using h.q4, by simpa using h.qr, by simpa using h.qc,
    by simpa [setSentCounter_flag] using h.flag, ?_, ?_⟩
  · intro m hm
    by_cases hmn : m = n
    · subst hmn
      rcases hd with rfl | rfl
      · constructor <;>
          simp [Sys.sent, sentCounter_set_same, sentCounter_set_4_3, e3, e4,
            incU32_small _ hlt.1] <;> omega
      · constructor <;>
          simp [Sys.sent, sentCounter_set_same, sentCounter_set_3_4, e3, e4,
            incU32_small _ hlt.2] <;> omega
    · have hm' := h.tx m hm
      have e3' := hm'.c3
      have e4' := hm'.c4
      simp only [Sys.sent] at e3' e4'
      have hT := txTask_setTxTask_other 
        { s with g := setSentCounter n d (incU32 (sentCounter n d s.g)) s.g } n m
        ⟨if d = 3 then { (s.txTask n).loc with sentTo3 := incU32 (s.txTask n).loc.sentTo3 }
          else { (s.txTask n).loc with sentTo4 := incU32 (s.txTask n).loc.sentTo4 },
          TxPc.sending ⟨d, n, sentCounter n d s.g, NET_MAX_PAYLOAD_SIZE⟩ 3⟩ hn hm hmn
      have hT' : Sys.txTask { s with g := setSentCounter n d (incU32 (sentCounter n d s.g)) s.g } m
          = s.txTask m := rfl
      constructor <;> simp only [Sys.sent, setTxTask_g, hT, hT',
        sentCounter_set_other_source _ _ _ _ _ _ hn hm hmn]
      · exact e3'
      · exact e4'
      · exact hm'.b3
      · exact hm'.b4
      · exact hm'.top
      · exact hm'.snd
  · intro src dst hsrc hdst
    apply (h.pair src dst hsrc hdst).of_sublist
    · simp [Sys.received]
    · simp [Sys.lost]
    · exact cursor_congr _ _ _ _ (by simp) (by simp)
    · rw [flight_congr s _ src dst (by simp) (by simp) (by simp) (by simp)]
    · by_cases hsn : src = n
      · subst hsn
        by_cases hdd : d = dst
        · subst hdd
          simp [Sys.committed, hpc, Sys.sent]
        · simp [Sys.committed, hpc, Sys.sent, hdd,
            sentCounter_set_other_dest _ _ _ _ _ hd hdst (Ne.symm hdd)]
      · simp only [Sys.committed, Sys.sent, setTxTask_g,
          txTask_setTxTask_other _ _ _ _ hn hsrc hsn,
          sentCounter_set_other_source _ _ _ _ _ _ hn hsrc hsn]
        rfl
    · by_cases hsn : src = n
      · subst hsn
        by_cases hdd : d = dst
        · subst hdd
          simp [Sys.committed, Sys.sent, sentCounter_set_same]
          rcases hd with rfl | rfl
          · rw [e3, incU32_small _ hlt.1]; omega
          · rw [e4, incU32_small _ hlt.2]; omega
        · simp [Sys.committed, Sys.sent, hdd]
      · have hp := (h.pair src dst hsrc hdst).com
        simp only [Sys.committed, Sys.sent, setTxTask_g,
          txTask_setTxTask_other _ _ _ _ hn hsrc hsn,
          sentCounter_set_other_source _ _ _ _ _ _ hn hsrc hsn] at hp ⊢
        exact hp

theorem decU32_small (x : Nat) (h0 : 0 < x) (h : x ≤ 1000) : decU32 x = x - 1 := by
  unfold decU32 U32
  omega

theorem TxOk.congr {s s1 : Sys} {m : Nat} (h : TxOk s m)
    (ht : s1.txTask m = s.txTask m) (h3 : s1.sent m 3 = s.sent m 3)
    (h4 : s1.sent m 4 = s.sent m 4) : TxOk s1 m := by
  constructor
  · rw [ht, h3]; exact h.c3
  · rw [ht, h4]; exact h.c4
  · rw [ht]; exact h.b3
  · rw [ht]; exact h.b4
  · rw [ht]; exact h.top
  · rw [ht]; exact h.snd

theorem committed_congr (s s1 : Sys) (src dst : Nat)
    (ht : s1.txTask src = s.txTask src) (hs : s1.sent src dst = s.sent src dst) :
    s1.committed src dst = s.committed src dst := by
  unfold Sys.committed
  rw [ht, hs]

theorem flight_central_append (s s1 : Sys) (src dst : Nat) (f : NetworkDataFrame)
    (h3 : s1.destination3Queue = s.destination3Queue)
    (h4 : s1.destination4Queue = s.destination4Queue)
    (hr : s1.router = s.router) (hc : s1.centralQueue = s.centralQueue ++ [f]) :
    s1.flight src dst =
      s.flight src dst ++ (if isPair src dst f = true then [f.frameIndex] else []) := by
  unfold Sys.flight Sys.pipeline Sys.queueOf
  rw [hr, hc]
  cases receiveQueue dst <;> by_cases hp : isPair src dst f = true <;>
    simp [h3, h4, hp, List.filter_cons]

theorem sent_setTxTask (s : Sys) (n : Nat) (t : TxTask) (src dst : Nat) :
    (s.setTxTask n t).sent src dst = s.sent src dst := by
  simp [Sys.sent]

theorem SysInv.txSendOk (s : Sys) (h : SysInv s) (n : Nat) (hn : n = 1 ∨ n = 2)
    (f : NetworkDataFrame) (rc : Nat) (hpc : (s.txTask n).pc = TxPc.sending f rc) :
    SysInv (Sys.setTxTask { s with centralQueue := s.centralQueue ++ [f] } n
      ⟨(s.txTask n).loc, TxPc.loopTop⟩) := by
  have ht := h.tx n hn
  obtain ⟨hfs, hfd⟩ := ht.snd f rc hpc
  have hw : wellAddressed f := by
    refine ⟨by rw [hfs]; exact hn, ?_⟩
    rcases hfd with ⟨h3, _⟩ | ⟨h4, _⟩
    · exact Or.inl h3
    · exact Or.inr h4
  refine ⟨by simpa using h.q3, by simpa using h.q4, by simpa using h.qr, ?_,
    by simpa using h.flag, ?_, ?_⟩
  · intro x hx
    simp only [setTxTask_centralQueue, List.mem_append, List.mem_singleton] at hx
    rcases hx with hx | rfl
    · exact h.qc x hx
    · exact hw
  · intro m hm
    by_cases hmn : m = n
    · subst hmn
      constructor
      · simpa [Sys.sent] using ht.c3
      · simpa [Sys.sent] using ht.c4
      · simpa using ht.b3
      · simpa using ht.b4
      · intro _
        simp only [txTask_setTxTask_same]
        rcases hfd with ⟨_, _, h4⟩ | ⟨_, _, h3⟩
        · exact Or.inr h4
        · exact Or.inl h3
      · intro fr r hfr
        simp at hfr
    · exact (h.tx m hm).congr (txTask_setTxTask_other _ _ _ _ hn hm hmn) (by simp [Sys.sent])
        (by simp [Sys.sent])
  · intro src dst hsrc hdst
    have hp := h.pair src dst hsrc hdst
    have hfl := flight_central_append s (Sys.setTxTask { s with centralQueue := s.centralQueue ++ [f] } n
      ⟨(s.txTask n).loc, TxPc.loopTop⟩) src dst f (by simp) (by simp) (by simp) (by simp)
    have hcur : (Sys.setTxTask { s with centralQueue := s.centralQueue ++ [f] } n
      ⟨(s.txTask n).loc, TxPc.loopTop⟩).cursor src dst = s.cursor src dst :=
      cursor_congr _ _ _ _ (by simp) (by simp)
    by_cases hpr : isPair src dst f = true
    · have hsd : f.sourceId = src ∧ f.destinationId = dst := by
        simpa [isPair] using hpr
      have hsn : src = n := by rw [← hsd.1, hfs]
      subst hsn
      have hcs : s.committed src dst = f.frameIndex := by
        simp [Sys.committed, hpc, hsd.2]
      have hsent : s.sent src dst = f.frameIndex + 1 := by
        rcases hfd with ⟨h3, e, _⟩ | ⟨h4, e, _⟩
        · rw [← hsd.2, h3, ht.c3, e]
        · rw [← hsd.2, h4, ht.c4, e]
      have hcs1 : (Sys.setTxTask { s with centralQueue := s.centralQueue ++ [f] } src
          ⟨(s.txTask src).loc, TxPc.loopTop⟩).committed src dst = f.frameIndex + 1 := by
        simp only [Sys.committed, txTask_setTxTask_same, sent_setTxTask]
        exact hsent
      have hrange := hp.range
      rw [hcs] at hrange
      refine ⟨by rw [hcur]; simpa [Sys.received, Sys.lost] using hp.sum, ?_, ?_, ?_, ?_⟩
      · rw [hfl, if_pos hpr, List.pairwise_append]
        refine ⟨hp.sorted, List.pairwise_singleton _ _, ?_⟩
        intro a ha b hb
        simp only [List.mem_singleton] at hb
        subst hb
        exact (hrange a ha).2
      · intro x hx
        rw [hfl, if_pos hpr, List.mem_append, List.mem_singleton] at hx
        rw [hcur, hcs1]
        rcases hx with hx | rfl
        · have := hrange x hx
          omega
        · have := hp.cur
          rw [hcs] at this
          omega
      · rw [hcur, hcs1]
        have := hp.cur
        rw [hcs] at this
        omega
      · rw [hcs1, sent_setTxTask]
        exact le_of_eq hsent.symm
    · have hcm : (Sys.setTxTask { s with centralQueue := s.centralQueue ++ [f] } n
          ⟨(s.txTask n).loc, TxPc.loopTop⟩).committed src dst = s.committed src dst := by
        by_cases hsn : src = n
        · subst hsn
          have hdd : ¬ f.destinationId = dst := by
            intro hd
            exact hpr (by simp [isPair, hfs, hd])
          simp [Sys.committed, hpc, hdd, Sys.sent]
        · exact committed_congr _ _ _ _ (txTask_setTxTask_other _ _ _ _ hn hsrc hsn)
            (by simp [Sys.sent])
      apply hp.of_sublist (by simp [Sys.received]) (by simp [Sys.lost]) hcur
      · rw [hfl, if_neg hpr, List.append_nil]
      · exact hcm
      · rw [hcm, sent_setTxTask]
        exact hp.com

theorem SysInv.txRetry (s : Sys) (h : SysInv s) (n : Nat) (hn : n = 1 ∨ n = 2)
    (f : NetworkDataFrame) (rc rc1 : Nat) (hpc : (s.txTask n).pc = TxPc.sending f rc) :
    SysInv (s.setTxTask n ⟨(s.txTask n).loc, TxPc.sending f rc1⟩) := by
  have ht := h.tx n hn
  refine ⟨by simpa using h.q3, by simpa using h.q4, by simpa using h.qr, by simpa using h.qc,
    by simpa using h.flag, ?_, ?_⟩
  · intro m hm
    by_cases hmn : m = n
    · subst hmn
      constructor
      · simpa [Sys.sent] using ht.c3
      · simpa [Sys.sent] using ht.c4
      · simpa using ht.b3
      · simpa using ht.b4
      · intro hh
        simp at hh
      · intro fr r hfr
        simp only [txTask_setTxTask_same, TxPc.sending.injEq] at hfr
        obtain ⟨hff, _⟩ := hfr
        subst hff
        simpa using ht.snd f rc hpc
    · exact (h.tx m hm).congr (txTask_setTxTask_other _ _ _ _ hn hm hmn) (by simp [Sys.sent])
        (by simp [Sys.sent])
  · intro src dst hsrc hdst
    have hp := h.pair src dst hsrc hdst
    have hcm : (s.setTxTask n ⟨(s.txTask n).loc, TxPc.sending f rc1⟩).committed src dst
        = s.committed src dst := by
      by_cases hsn : src = n
      · subst hsn
        simp [Sys.committed, hpc, Sys.sent]
      · exact committed_congr _ _ _ _ (txTask_setTxTask_other _ _ _ _ hn hsrc hsn)
          (by simp [Sys.sent])
    apply hp.of_sublist (by simp [Sys.received]) (by simp [Sys.lost])
      (cursor_congr _ _ _ _ (by simp) (by simp))
    · rw [flight_congr s _ src dst (by simp) (by simp) (by simp) (by simp)]
    · exact hcm
    · rw [hcm, sent_setTxTask]
      exact hp.com

theorem txRollback_cases (n : Nat) (f : NetworkDataFrame) (g : Globals) (l : TxLocal)
    (hd : f.destinationId = 3 ∨ f.destinationId = 4) :
    txRollback n f g l =
      (setSentCounter n f.destinationId (decU32 (sentCounter n f.destinationId g)) g,
        if f.destinationId = 3 then { l with sentTo3 := decU32 l.sentTo3 }
        else { l with sentTo4 := decU32 l.sentTo4 }) := by
  unfold txRollback
  rcases hd with h | h <;> simp [h]

theorem SysInv.txRollback (s : Sys) (h : SysInv s) (n : Nat) (hn : n = 1 ∨ n = 2)
    (f : NetworkDataFrame) (rc : Nat) (hpc : (s.txTask n).pc = TxPc.sending f rc) :
    SysInv (Sys.setTxTask { s with g := (txRollback n f s.g (s.txTask n).loc).1 } n
      ⟨(txRollback n f s.g (s.txTask n).loc).2, TxPc.loopTop⟩) := by
  have ht := h.tx n hn
  obtain ⟨hfs, hfd⟩ := ht.snd f rc hpc
  have hd : f.destinationId = 3 ∨ f.destinationId = 4 := by
    rcases hfd with ⟨h3, _⟩ | ⟨h4, _⟩
    · exact Or.inl h3
    · exact Or.inr h4
  rw [txRollback_cases n f s.g _ hd]
  have e3 := ht.c3
  have e4 := ht.c4
  have b3 := ht.b3
  have b4 := ht.b4
  simp only [Sys.sent] at e3 e4
  refine ⟨by simpa using h.q3, by simpa using h.q4, by simpa using h.qr, by simpa using h.qc,
    by simpa [setSentCounter_flag] using h.flag, ?_, ?_⟩
  · intro m hm
    by_cases hmn : m = n
    · subst hmn
      rcases hfd with ⟨h3, e, hl⟩ | ⟨h4, e, hl⟩
      · constructor <;>
          simp [Sys.sent, h3, sentCounter_set_same, sentCounter_set_4_3, e3, e4, e,
            decU32_small (f.frameIndex + 1) (by omega) (by omega)] <;> omega
      · constructor <;>
          simp [Sys.sent, h4, sentCounter_set_same, sentCounter_set_3_4, e3, e4, e,
            decU32_small (f.frameIndex + 1) (by omega) (by omega)] <;> omega
    · refine (h.tx m hm).congr (txTask_setTxTask_other _ _ _ _ hn hm hmn) ?_ ?_ <;>
        simp [Sys.sent, sentCounter_set_other_source _ _ _ _ _ _ hn hm hmn]
  · intro src dst hsrc hdst
    have hp := h.pair src dst hsrc hdst
    have hcm : (Sys.setTxTask { s with g := (setSentCounter n f.destinationId
          (decU32 (sentCounter n f.destinationId s.g)) s.g) } n
        ⟨if f.destinationId = 3 then
            { (s.txTask n).loc with sentTo3 := decU32 (s.txTask n).loc.sentTo3 }
          else { (s.txTask n).loc with sentTo4 := decU32 (s.txTask n).loc.sentTo4 },
          TxPc.loopTop⟩).committed src dst = s.committed src dst := by
      by_cases hsn : src = n
      · subst hsn
        by_cases hdd : f.destinationId = dst
        · subst hdd
          simp only [Sys.committed, txTask_setTxTask_same, Sys.sent, setTxTask_g, hpc, if_true,
            sentCounter_set_same]
          rcases hfd with ⟨h3, e, _⟩ | ⟨h4, e, _⟩
          · rw [h3, e3, e, decU32_small _ (by omega) (by omega)]; simp
          · rw [h4, e4, e, decU32_small _ (by omega) (by omega)]; simp
        · simp [Sys.committed, hpc, Sys.sent, hdd,
            sentCounter_set_other_dest _ _ _ _ _ hd hdst (Ne.symm hdd)]
      · refine committed_congr _ _ _ _ (txTask_setTxTask_other _ _ _ _ hn hsrc hsn) ?_
        simp [Sys.sent, sentCounter_set_other_source _ _ _ _ _ _ hn hsrc hsn]
    apply hp.of_sublist (by simp [Sys.received]) (by simp [Sys.lost])
      (cursor_congr _ _ _ _ (by simp) (by simp))
    · rw [flight_congr s _ src dst (by simp) (by simp) (by simp) (by simp)]
    · exact hcm
    · by_cases hsn : src = n
      · subst hsn
        simp [Sys.committed]
      · rw [hcm]
        have hse : (Sys.setTxTask { s with g := (setSentCounter n f.destinationId
            (decU32 (sentCounter n f.destinationId s.g)) s.g) } n
          ⟨if f.destinationId = 3 then
              { (s.txTask n).loc with sentTo3 := decU32 (s.txTask n).loc.sentTo3 }
            else { (s.txTask n).loc with sentTo4 := decU32 (s.txTask n).loc.sentTo4 },
            TxPc.loopTop⟩).sent src dst = s.sent src dst := by
          simp [Sys.sent, sentCounter_set_other_source _ _ _ _ _ _ hn hsrc hsn]
        rw [hse]
        exact hp.com

theorem SysInv.txExit (s : Sys) (h : SysInv s) (n : Nat) (hn : n = 1 ∨ n = 2)
    (hpc : (s.txTask n).pc = TxPc.loopTop) :
    SysInv (Sys.setTxTask { s with g :=
        if 1000 ≤ (s.txTask n).loc.sentTo3 ∧ 1000 ≤ (s.txTask n).loc.sentTo4 then
          { s.g with analyticsComplete := true }
        else s.g } n ⟨(s.txTask n).loc, TxPc.suspended⟩) := by
  have ht := h.tx n hn
  have hnot : ¬ (1000 ≤ (s.txTask n).loc.sentTo3 ∧ 1000 ≤ (s.txTask n).loc.sentTo4) := by
    have := ht.top hpc
    omega
  rw [if_neg hnot]
  refine ⟨by simpa using h.q3, by simpa using h.q4, by simpa using h.qr, by simpa using h.qc,
    by simpa using h.flag, ?_, ?_⟩
  · intro m hm
    by_cases hmn : m = n
    · subst hmn
      constructor
      · simpa [Sys.sent] using ht.c3
      · simpa [Sys.sent] using ht.c4
      · simpa using ht.b3
      · simpa using ht.b4
      · intro hh
        simp at hh
      · intro fr r hfr
        simp at hfr
    · exact (h.tx m hm).congr (txTask_setTxTask_other _ _ _ _ hn hm hmn) (by simp [Sys.sent])
        (by simp [Sys.sent])
  · intro src dst hsrc hdst
    have hp := h.pair src dst hsrc hdst
    have hcm : (Sys.setTxTask { s with g := s.g } n
        ⟨(s.txTask n).loc, TxPc.suspended⟩).committed src dst = s.committed src dst := by
      by_cases hsn : src = n
      · subst hsn
        simp [Sys.committed, hpc, Sys.sent]
      · exact committed_congr _ _ _ _ (txTask_setTxTask_other _ _ _ _ hn hsrc hsn)
          (by simp [Sys.sent])
    apply hp.of_sublist (by simp [Sys.received]) (by simp [Sys.lost])
      (cursor_congr _ _ _ _ (by simp) (by simp))
    · rw [flight_congr s _ src dst (by simp) (by simp) (by simp) (by simp)]
    · exact hcm
    · rw [hcm, sent_setTxTask]
      exact hp.com

theorem flight_sublist_of_pipeline (s s1 : Sys) (src dst : Nat)
    (h : (s1.pipeline dst).Sublist (s.pipeline dst)) :
    (s1.flight src dst).Sublist (s.flight src dst) := by
  unfold Sys.flight
  exact (h.filter _).map _

theorem SysInv.routerReceive (s : Sys) (h : SysInv s) (f : NetworkDataFrame)
    (rest : List NetworkDataFrame) (hr : s.router = none) (hc : s.centralQueue = f :: rest) :
    SysInv { s with centralQueue := rest, router := some f } := by
  have hqc := h.qc
  rw [hc] at hqc
  refine ⟨h.q3, h.q4, ?_, ?_, h.flag, ?_, ?_⟩
  · intro x hx
    simp only [Option.toList, List.mem_singleton] at hx
    subst hx
    exact hqc x (List.mem_cons_self _ _)
  · intro x hx
    exact hqc x (List.mem_cons_of_mem _ hx)
  · intro m hm
    exact (h.tx m hm).congr rfl rfl rfl
  · intro src dst hsrc hdst
    have hp := h.pair src dst hsrc hdst
    have hpl : Sys.pipeline { s with centralQueue := rest, router := some f } dst
        = s.pipeline dst := by
      unfold Sys.pipeline
      rw [hr, hc]
      cases hq : receiveQueue dst <;> simp [Sys.queueOf, Option.toList]
    refine hp.of_sublist rfl rfl rfl ?_ rfl hp.com
    apply flight_sublist_of_pipeline
    rw [hpl]

theorem SysInv.routerDiscard (s : Sys) (h : SysInv s) (f : NetworkDataFrame)
    (hr : s.router = some f) : SysInv { s with router := none } := by
  refine ⟨h.q3, h.q4, ?_, h.qc, h.flag, ?_, ?_⟩
  · intro x hx
    simp [Option.toList] at hx
  · intro m hm
    exact (h.tx m hm).congr rfl rfl rfl
  · intro src dst hsrc hdst
    have hp := h.pair src dst hsrc hdst
    refine hp.of_sublist rfl rfl rfl ?_ rfl hp.com
    apply flight_sublist_of_pipeline
    unfold Sys.pipeline
    rw [hr]
    cases hq : receiveQueue dst <;> simp [Sys.queueOf, Option.toList]

theorem SysInv.routerForward (s : Sys) (h : SysInv s) (f : NetworkDataFrame)
    (hr : s.router = some f) :
    SysInv (Sys.setQueue { s with router := none } (targetQueue f)
      (s.queueOf (targetQueue f) ++ [f])) := by
  have hw : wellAddressed f := h.qr f (by simp [hr, Option.toList])
  refine ⟨?_, ?_, ?_, by simpa using h.qc, by simpa using h.flag, ?_, ?_⟩
  · intro x hx
    by_cases h3 : f.destinationId = 3
    · simp only [targetQueue, h3, if_true, Sys.setQueue, Sys.queueOf, List.mem_append,
        List.mem_singleton] at hx
      rcases hx with hx | rfl
      · exact h.q3 x hx
      · exact ⟨hw, h3⟩
    · simp only [targetQueue, h3, if_false, Sys.setQueue] at hx
      exact h.q3 x hx
  · intro x hx
    by_cases h3 : f.destinationId = 3
    · simp only [targetQueue, h3, if_true, Sys.setQueue] at hx
      exact h.q4 x hx
    · simp only [targetQueue, h3, if_false, Sys.setQueue, Sys.queueOf, List.mem_append,
        List.mem_singleton] at hx
      rcases hx with hx | rfl
      · exact h.q4 x hx
      · refine ⟨hw, ?_⟩
        rcases hw.2 with h | h
        · exact absurd h h3
        · exact h
  · intro x hx
    simp [Option.toList] at hx
  · intro m hm
    refine (h.tx m hm).congr ?_ (by simp [Sys.sent]) (by simp [Sys.sent])
    simp [Sys.txTask]
  · intro src dst hsrc hdst
    have hp := h.pair src dst hsrc hdst
    have hcm : (Sys.setQueue { s with router := none } (targetQueue f)
        (s.queueOf (targetQueue f) ++ [f])).committed src dst = s.committed src dst :=
      committed_congr _ _ _ _ (by simp [Sys.txTask]) (by simp [Sys.sent])
    refine hp.of_sublist (by simp [Sys.received]) (by simp [Sys.lost])
      (cursor_congr _ _ _ _ (by simp) (by simp)) ?_ hcm ?_
    · apply flight_sublist_of_pipeline
      unfold Sys.pipeline
      rw [hr]
      by_cases hq : receiveQueue dst = targetQueue f
      · rw [hq]
        simp [Option.toList]
      · rw [queueOf_setQueue_other _ _ _ _ hq]
        simp only [setQueue_router, setQueue_centralQueue, Option.toList]
        have : Sys.queueOf { s with router := none } (receiveQueue dst)
            = s.queueOf (receiveQueue dst) := by
          cases receiveQueue dst <;> rfl
        rw [this]
        simp
    · rw [hcm]
      simpa [Sys.sent] using hp.com

/-! ### Accounting of the receiver -/

theorem rxAccept_sent (n d dst : Nat) (f : NetworkDataFrame) (g : Globals) (l : RxLocal) :
    sentCounter n d (rxAccept dst f g l).1 = sentCounter n d g := by
  unfold rxAccept
  simp only
  split <;> simp

theorem rxAccept_flag (dst : Nat) (f : NetworkDataFrame) (g : Globals) (l : RxLocal) :
    (rxAccept dst f g l).1.analyticsComplete = g.analyticsComplete := by
  unfold rxAccept
  simp only
  split <;> simp

theorem rxAccept_received (dst : Nat) (f : NetworkDataFrame) (g : Globals) (l : RxLocal) :
    receivedCount (rxSlot dst f.sourceId) (rxAccept dst f g l).1
      = incU32 (receivedCount (rxSlot dst f.sourceId) g) := by
  unfold rxAccept
  simp only
  split <;> simp

theorem rxAccept_lost (dst : Nat) (f : NetworkDataFrame) (g : Globals) (l : RxLocal) :
    lostCount (rxSlot dst f.sourceId) (rxAccept dst f g l).1
      = if f.frameIndex ≠ expectedIndex (rxSlot dst f.sourceId) l then
          (lostCount (rxSlot dst f.sourceId) g
            + subU32 f.frameIndex (expectedIndex (rxSlot dst f.sourceId) l)) % U32
        else lostCount (rxSlot dst f.sourceId) g := by
  unfold rxAccept
  simp only
  split <;> simp

theorem rxAccept_expected (dst : Nat) (f : NetworkDataFrame) (g : Globals) (l : RxLocal) :
    expectedIndex (rxSlot dst f.sourceId) (rxAccept dst f g l).2 = incU32 f.frameIndex := by
  simp [rxAccept]

theorem rxAccept_received_other (dst : Nat) (f : NetworkDataFrame) (g : Globals) (l : RxLocal)
    (slot : RxSlot) (h : slot ≠ rxSlot dst f.sourceId) :
    receivedCount slot (rxAccept dst f g l).1 = receivedCount slot g := by
  unfold rxAccept
  simp only
  split <;> simp [receivedCount_setReceivedCount_other _ _ _ _ h]

theorem rxAccept_lost_other (dst : Nat) (f : NetworkDataFrame) (g : Globals) (l : RxLocal)
    (slot : RxSlot) (h : slot ≠ rxSlot dst f.sourceId) :
    lostCount slot (rxAccept dst f g l).1 = lostCount slot g := by
  unfold rxAccept
  simp only
  split <;> simp [lostCount_setLostCount_other _ _ _ _ h]

theorem rxSlot_ne (src src1 dst dst1 : Nat) (hs : src = 1 ∨ src = 2) (hs1 : src1 = 1 ∨ src1 = 2)
    (hd : dst = 3 ∨ dst = 4) (hd1 : dst1 = 3 ∨ dst1 = 4) (h : ¬ (src = src1 ∧ dst = dst1)) :
    rxSlot dst src ≠ rxSlot dst1 src1 := by
  rcases hs with rfl | rfl <;> rcases hs1 with rfl | rfl <;> rcases hd with rfl | rfl <;>
    rcases hd1 with rfl | rfl <;> simp_all [rxSlot]

theorem expectedIndex_set_other_source (src src1 dst v : Nat) (l : RxLocal)
    (hs : src = 1 ∨ src = 2) (hs1 : src1 = 1 ∨ src1 = 2) (hd : dst = 3 ∨ dst = 4)
    (h : src ≠ src1) :
    expectedIndex (rxSlot dst src) (setExpectedIndex (rxSlot dst src1) v l)
      = expectedIndex (rxSlot dst src) l := by
  rcases hs with rfl | rfl <;> rcases hs1 with rfl | rfl <;> rcases hd with rfl | rfl <;>
    simp_all [rxSlot, expectedIndex, setExpectedIndex]

theorem subU32_of_le (a b : Nat) (hb : b ≤ a) (ha : a < U32) : subU32 a b = a - b := by
  unfold subU32
  have : b % U32 = b := Nat.mod_eq_of_lt (by omega)
  rw [this]
  unfold U32 at *
  omega

theorem sent_le_1000 (s : Sys) (h : SysInv s) (src dst : Nat) (hs : src = 1 ∨ src = 2)
    (hd : dst = 3 ∨ dst = 4) : s.sent src dst ≤ 1000 := by
  have ht := h.tx src hs
  rcases hd with rfl | rfl
  · rw [ht.c3]; exact ht.b3
  · rw [ht.c4]; exact ht.b4

theorem rxAccept_expected_other (src dst : Nat) (f : NetworkDataFrame) (g : Globals)
    (l : RxLocal) (hs : src = 1 ∨ src = 2) (hf : f.sourceId = 1 ∨ f.sourceId = 2)
    (hd : dst = 3 ∨ dst = 4) (h : src ≠ f.sourceId) :
    expectedIndex (rxSlot dst src) (rxAccept dst f g l).2 = expectedIndex (rxSlot dst src) l := by
  simp only [rxAccept]
  exact expectedIndex_set_other_source src f.sourceId dst _ l hs hf hd h

theorem SysInv.rx_of (s s1 : Sys) (h : SysInv s) (dst0 : Nat) (hd0 : dst0 = 3 ∨ dst0 = 4)
    (f : NetworkDataFrame) (rest : List NetworkDataFrame)
    (hw : wellAddressed f) (hfd : f.destinationId = dst0)
    (hq : s.queueOf (receiveQueue dst0) = f :: rest)
    (hg : s1.g = (rxAccept dst0 f s.g (s.rxLocal dst0)).1)
    (hl : s1.rxLocal dst0 = (rxAccept dst0 f s.g (s.rxLocal dst0)).2)
    (hlo : ∀ dst, (dst = 3 ∨ dst = 4) → dst ≠ dst0 → s1.rxLocal dst = s.rxLocal dst)
    (hq1 : s1.queueOf (receiveQueue dst0) = rest)
    (hqo : ∀ dst, (dst = 3 ∨ dst = 4) → dst ≠ dst0 →
      s1.queueOf (receiveQueue dst) = s.queueOf (receiveQueue dst))
    (hr : s1.router = s.router) (hc : s1.centralQueue = s.centralQueue)
    (ht1 : s1.tx1 = s.tx1) (ht2 : s1.tx2 = s.tx2) : SysInv s1 := by
  have hsub : ∀ d, (d = 3 ∨ d = 4) → ∀ x ∈ s1.queueOf (receiveQueue d),
      x ∈ s.queueOf (receiveQueue d) := by
    intro d hd x hx
    by_cases hdd : d = dst0
    · subst hdd
      rw [hq1] at hx
      rw [hq]
      exact List.mem_cons_of_mem _ hx
    · rw [hqo d hd hdd] at hx
      exact hx
  have htx : ∀ m, s1.txTask m = s.txTask m := by
    intro m
    simp [Sys.txTask, ht1, ht2]
  have hsent : ∀ m d, s1.sent m d = s.sent m d := by
    intro m d
    simp [Sys.sent, hg, rxAccept_sent]
  refine ⟨?_, ?_, by rw [hr]; exact h.qr, by rw [hc]; exact h.qc,
    by rw [hg, rxAccept_flag]; exact h.flag, ?_, ?_⟩
  · intro x hx
    exact h.q3 x (hsub 3 (Or.inl rfl) x hx)
  · intro x hx
    exact h.q4 x (hsub 4 (Or.inr rfl) x hx)
  · intro m hm
    exact (h.tx m hm).congr (htx m) (hsent m 3) (hsent m 4)
  · intro src dst hsrc hdst
    have hp := h.pair src dst hsrc hdst
    have hcm : s1.committed src dst = s.committed src dst :=
      committed_congr _ _ _ _ (htx src) (hsent src dst)
    have hs1000 := sent_le_1000 s h src dst hsrc hdst
    by_cases hm : src = f.sourceId ∧ dst = dst0
    · obtain ⟨rfl, rfl⟩ := hm
      have hfl : s.flight f.sourceId dst = f.frameIndex :: s1.flight f.sourceId dst := by
        unfold Sys.flight Sys.pipeline
        rw [hq, hq1, hr, hc]
        simp [List.filter_cons, isPair, hfd]
      have hrange := hp.range
      have hsorted := hp.sorted
      rw [hfl] at hrange hsorted
      have hfi := hrange f.frameIndex (List.mem_cons_self _ _)
      have hcom := hp.com
      have hsum := hp.sum
      simp only [Sys.received, Sys.lost, Sys.cursor] at hsum hfi
      have hU : (1000 : Nat) < U32 := by unfold U32; omega
      have hrec : s1.received f.sourceId dst
          = receivedCount (rxSlot dst f.sourceId) s.g + 1 := by
        simp only [Sys.received, hg, rxAccept_received]
        unfold incU32
        exact Nat.mod_eq_of_lt (by omega)
      have hcur : s1.cursor f.sourceId dst = f.frameIndex + 1 := by
        simp only [Sys.cursor, hl, rxAccept_expected]
        unfold incU32
        exact Nat.mod_eq_of_lt (by omega)
      have hlost : s1.lost f.sourceId dst
          = lostCount (rxSlot dst f.sourceId) s.g
            + (f.frameIndex - expectedIndex (rxSlot dst f.sourceId) (s.rxLocal dst)) := by
        simp only [Sys.lost, hg, rxAccept_lost]
        split
        · rw [subU32_of_le _ _ hfi.1 (by omega)]
          exact Nat.mod_eq_of_lt (by omega)
        · next hne =>
          simp only [ne_eq, not_not] at hne
          rw [hne]
          simp
      refine ⟨?_, (List.pairwise_cons.mp hsorted).2, ?_, ?_, ?_⟩
      · rw [hrec, hlost, hcur]
        omega
      · intro x hx
        rw [hcur, hcm]
        have h1 := (List.pairwise_cons.mp hsorted).1 x hx
        have h2 := hrange x (List.mem_cons_of_mem _ hx)
        omega
      · rw [hcur, hcm]
        omega
      · rw [hcm, hsent]
        exact hcom
    · have hslot : rxSlot dst src ≠ rxSlot dst0 f.sourceId :=
        rxSlot_ne src f.sourceId dst dst0 hsrc hw.1 hdst hd0 hm
      have hcur : s1.cursor src dst = s.cursor src dst := by
        unfold Sys.cursor
        by_cases hdd : dst = dst0
        · subst hdd
          rw [hl]
          exact rxAccept_expected_other src dst f s.g _ hsrc hw.1 hdst
            (fun e => hm ⟨e, rfl⟩)
        · rw [hlo dst hdst hdd]
      have hfl : s1.flight src dst = s.flight src dst := by
        unfold Sys.flight Sys.pipeline
        by_cases hdd : dst = dst0
        · subst hdd
          have hne : ¬ f.sourceId = src := fun e => hm ⟨e.symm, rfl⟩
          rw [hq, hq1, hr, hc]
          simp [List.filter_cons, isPair, hne]
        · rw [hqo dst hdst hdd, hr, hc]
      refine hp.of_sublist ?_ ?_ hcur (by rw [hfl]) hcm (by rw [hcm, hsent]; exact hp.com)
      · simp only [Sys.received, hg]
        exact rxAccept_received_other dst0 f s.g _ _ hslot
      · simp only [Sys.lost, hg]
        exact rxAccept_lost_other dst0 f s.g _ _ hslot

theorem head_addressed (s : Sys) (h : SysInv s) (dst0 : Nat) (hd0 : dst0 = 3 ∨ dst0 = 4)
    (f : NetworkDataFrame) (rest : List NetworkDataFrame)
    (hq : s.queueOf (receiveQueue dst0) = f :: rest) :
    wellAddressed f ∧ f.destinationId = dst0 := by
  rcases hd0 with rfl | rfl
  · exact h.q3 f (by
      have : s.destination3Queue = f :: rest := hq
      rw [this]; exact List.mem_cons_self _ _)
  · exact h.q4 f (by
      have : s.destination4Queue = f :: rest := hq
      rw [this]; exact List.mem_cons_self _ _)

theorem SysInv.step (a : Action) (s s1 : Sys) (h : SysInv s) (hs : step a s = some s1) :
    SysInv s1 := by
  cases a with
  | txAllocFail n =>
    unfold Eece2027.step at hs
    simp only at hs
    split at hs
    · simp only [Option.some.injEq] at hs
      subst hs
      exact h
    · simp at hs
  | txBegin n r =>
    unfold Eece2027.step at hs
    simp only at hs
    split at hs
    · next hc =>
      simp only [Option.some.injEq] at hs
      subst hs
      exact h.txBegin s n r hc.1 hc.2.1 hc.2.2
    · simp at hs
  | txSendOk n =>
    unfold Eece2027.step at hs
    simp only at hs
    split at hs
    · next hn =>
      split at hs
      · next f rc hpc =>
        split at hs
        · simp only [Option.some.injEq] at hs
          subst hs
          exact h.txSendOk s n hn f rc hpc
        · simp at hs
      · simp at hs
    · simp at hs
  | txSendFail n =>
    unfold Eece2027.step at hs
    simp only at hs
    split at hs
    · next hn =>
      split at hs
      · next f rc hpc =>
        split at hs
        · simp only [Option.some.injEq] at hs
          subst hs
          exact h.txRetry s n hn f rc (rc - 1) hpc
        · simp only [Option.some.injEq] at hs
          subst hs
          exact h.txRollback s n hn f rc hpc
      · simp at hs
    · simp at hs
  | txExit n =>
    unfold Eece2027.step at hs
    simp only at hs
    split at hs
    · next hc =>
      simp only [Option.some.injEq] at hs
      subst hs
      exact h.txExit s n hc.1 hc.2.1
    · simp at hs
  | routerReceive =>
    unfold Eece2027.step at hs
    simp only at hs
    split at hs
    · next f rest hr hc =>
      simp only [Option.some.injEq] at hs
      subst hs
      exact h.routerReceive s f rest hr hc
    · simp at hs
  | routerHandle r ok =>
    unfold Eece2027.step at hs
    simp only at hs
    split at hs
    · next f hr =>
      split at hs
      · simp only [Option.some.injEq] at hs
        subst hs
        exact h.routerDiscard s f hr
      · split at hs
        · split at hs
          · simp only [Option.some.injEq] at hs
            subst hs
            exact h.routerForward s f hr
          · simp at hs
        · simp only [Option.some.injEq] at hs
          subst hs
          exact h.routerDiscard s f hr
    · simp at hs
  | rxReceive dst0 =>
    unfold Eece2027.step at hs
    simp only at hs
    split at hs
    · next hd0 =>
      split at hs
      · next f rest hq =>
        obtain ⟨hw, hfd⟩ := head_addressed s h dst0 hd0 f rest hq
        have hrf : receiveFrame dst0 f s.g (s.rxLocal dst0)
            = rxAccept dst0 f s.g (s.rxLocal dst0) := by
          simp [receiveFrame, addressMismatch, hfd]
        rw [hrf] at hs
        simp only [Option.some.injEq] at hs
        subst hs
        rcases hd0 with rfl | rfl
        · exact h.rx_of s _ 3 (Or.inl rfl) f rest hw hfd hq rfl rfl
            (by intro d hd hne; rcases hd with rfl | rfl
                · exact absurd rfl hne
                · rfl)
            rfl
            (by intro d hd hne; rcases hd with rfl | rfl
                · exact absurd rfl hne
                · rfl)
            rfl rfl rfl rfl
        · exact h.rx_of s _ 4 (Or.inr rfl) f rest hw hfd hq rfl rfl
            (by intro d hd hne; rcases hd with rfl | rfl
                · rfl
                · exact absurd rfl hne)
            rfl
            (by intro d hd hne; rcases hd with rfl | rfl
                · rfl
                · exact absurd rfl hne)
            rfl rfl rfl rfl
      · simp at hs
    · simp at hs

theorem sysInv_at_start : SysInv Sys.init := by
  constructor <;> first
    | (intro f hf; simp [Sys.init] at hf)
    | rfl
    | (intro m hm; constructor <;> simp [Sys.init, Sys.sent, Sys.txTask, sentCounter,
        Globals.init])
    | (intro m d hm hd; rcases hm with rfl | rfl <;> rcases hd with rfl | rfl <;>
        constructor <;> simp [Sys.init, Sys.sent, Sys.txTask, sentCounter, Globals.init,
        Sys.received, Sys.lost, Sys.cursor, Sys.flight, Sys.pipeline, Sys.committed, Sys.queueOf,
        receiveQueue, rxSlot, receivedCount, lostCount, expectedIndex, Sys.rxLocal])

theorem SysInv.of_reachable (s : Sys) (h : Reachable s) : SysInv s := by
  induction h with
  | init => exact sysInv_at_start
  | step a s s1 _ hst ih => exact ih.step a s s1 hst

/-! ### Producer on its own -/

theorem sendWithRetry_all_fail (q : Nat → Bool) (h : ∀ k, q k = false) :
    sendWithRetry q = ⟨false, 3, [50, 100, 150]⟩ := by
  simp [sendWithRetry, sendLoop, h]

theorem transmitIteration_inputTo3 (n : Nat) (s : TxState) :
    (transmitIteration n inputTo3 s).loc = ⟨incU32 s.loc.sentTo3, s.loc.sentTo4⟩ := by
  simp [transmitIteration, inputTo3, sendWithRetry, sendLoop, txAssign]

theorem transmitLoop_all_to3 (n : Nat) :
    ∀ (k : Nat) (s : TxState), s.loc.sentTo3 + k = 1000 → s.loc.sentTo4 = 0 →
      ∃ st, transmitLoop n (List.replicate k inputTo3) s = some st ∧
        st.loc.sentTo3 = 1000 ∧ st.loc.sentTo4 = 0 := by
  intro k
  induction k with
  | zero =>
    intro s h3 h4
    refine ⟨s, ?_, by omega, h4⟩
    unfold transmitLoop
    have : txContinue s.loc = false := by simp [txContinue]; omega
    simp [this]
  | succ k ih =>
    intro s h3 h4
    have hc : txContinue s.loc = true := by simp [txContinue]; omega
    have hl := transmitIteration_inputTo3 n s
    have hi : incU32 s.loc.sentTo3 = s.loc.sentTo3 + 1 := by
      unfold incU32 U32; omega
    obtain ⟨st, hst, r3, r4⟩ := ih (transmitIteration n inputTo3 s)
      (by rw [hl, hi]; simp; omega) (by rw [hl]; exact h4)
    refine ⟨st, ?_, r3, r4⟩
    rw [List.replicate_succ]
    unfold transmitLoop
    simp [hc, hst]

theorem txFinish_of_inv (n : Nat) (st : TxState) (h : TxInv n st) : txFinish st = st := by
  unfold txFinish
  have := h.one
  rw [if_neg (by omega)]

/-- C1 (code defect): whenever the send loop of a producer ends, exactly one of its two
send-success counts is 1000 and the other is below 1000; the loop never ends with 1000
successful sends for each destination. -/
theorem transmitLoop_ends_with_one_target (nodeIdentity : Nat) (inputs : List TxInput)
    (st : TxState) (h : transmitLoop nodeIdentity inputs TxState.init = some st) :
    (st.loc.sentTo3 = 1000 ∧ st.loc.sentTo4 < 1000) ∨
      (st.loc.sentTo4 = 1000 ∧ st.loc.sentTo3 < 1000) := by
  obtain ⟨hi, hc⟩ := transmitLoop_some nodeIdentity inputs TxState.init st
    (txInv_at_start nodeIdentity) h
  have h3 := hi.b3
  have h4 := hi.b4
  have ho := hi.one
  simp only [txContinue, Bool.and_eq_false_iff, decide_eq_false_iff_not] at hc
  omega

/-- Failing input of C1: 1000 iterations that all choose destination 3 and succeed at the
first send end the loop of node 1 with 1000 frames for destination 3 and none for
destination 4. -/
theorem transmitLoop_ends_with_one_target_witness :
    ∃ st, transmitLoop 1 (List.replicate 1000 inputTo3) TxState.init = some st ∧
      st.loc.sentTo3 = 1000 ∧ st.loc.sentTo4 = 0 ∧
      ((st.loc.sentTo3 = 1000 ∧ st.loc.sentTo4 < 1000) ∨
        (st.loc.sentTo4 = 1000 ∧ st.loc.sentTo3 < 1000)) := by
  obtain ⟨st, hst, h3, h4⟩ := transmitLoop_all_to3 1 1000 TxState.init rfl rfl
  exact ⟨st, hst, h3, h4,
    transmitLoop_ends_with_one_target 1 (List.replicate 1000 inputTo3) st hst⟩

/-- C2 (code defect): whenever a producer reaches its `vTaskSuspend(NULL)`, the flag
`analyticsComplete` is still false: the test of line 124 (187) never holds after the
loop. -/
theorem producer_never_marks_completion (nodeIdentity : Nat) (inputs : List TxInput)
    (st : TxState) (h : transmitPacket nodeIdentity inputs TxState.init = some st) :
    st.g.analyticsComplete = false := by
  unfold transmitPacket at h
  cases hl : transmitLoop nodeIdentity inputs TxState.init with
  | none => simp [hl] at h
  | some s1 =>
    obtain ⟨hi, _⟩ := transmitLoop_some nodeIdentity inputs TxState.init s1
      (txInv_at_start nodeIdentity) hl
    rw [hl] at h
    simp only [Option.map_some', Option.some.injEq] at h
    rw [← h, txFinish_of_inv nodeIdentity s1 hi]
    exact hi.flag

/-- Failing input of C2: `TransmitNode1Packet` on 1000 iterations that all choose
destination 3 and succeed reaches its end and leaves `analyticsComplete` false. -/
theorem producer_never_marks_completion_witness :
    ∃ st, TransmitNode1Packet (List.replicate 1000 inputTo3) = some st ∧
      st.g.analyticsComplete = false := by
  obtain ⟨s1, hs1, _, _⟩ := transmitLoop_all_to3 1 1000 TxState.init rfl rfl
  have hp : TransmitNode1Packet (List.replicate 1000 inputTo3) = some (txFinish s1) := by
    unfold TransmitNode1Packet transmitPacket
    rw [hs1]
    rfl
  exact ⟨txFinish s1, hp,
    producer_never_marks_completion 1 (List.replicate 1000 inputTo3) (txFinish s1) hp⟩

/-- C3 (code defect): when every `xQueueSend` of a frame fails, the producer calls it
3 times in all (one attempt and 2 retries), waits 50, 100 and 150 ms after the failed
attempts, and gives up; there is no fourth attempt after the third wait. -/
theorem three_attempts_when_all_fail (xQueueSend : Nat → Bool)
    (h : ∀ k, xQueueSend k = false) :
    (sendWithRetry xQueueSend).sendStatus = false ∧
      (sendWithRetry xQueueSend).attempts = 3 ∧
      (sendWithRetry xQueueSend).backoffs = [50 * 1, 50 * 2, 50 * 3] := by
  rw [sendWithRetry_all_fail xQueueSend h]
  exact ⟨rfl, rfl, rfl⟩

/-- Failing input of C3: the iteration input `inputFail`, under which every send
fails. -/
theorem three_attempts_when_all_fail_witness :
    (sendWithRetry inputFail.xQueueSend).sendStatus = false ∧
      (sendWithRetry inputFail.xQueueSend).attempts = 3 ∧
      (sendWithRetry inputFail.xQueueSend).backoffs = [50 * 1, 50 * 2, 50 * 3] :=
  three_attempts_when_all_fail inputFail.xQueueSend (fun _ => rfl)

theorem receiveFrame_accept (dst : Nat) (f : NetworkDataFrame) (g : Globals) (l : RxLocal)
    (h : f.destinationId = dst) : receiveFrame dst f g l = rxAccept dst f g l := by
  simp [receiveFrame, addressMismatch, h]

/-- One accepted frame whose sequence number is not below the cursor. -/
theorem rxAccept_in_order (src dst x len : Nat) (g : Globals) (l : RxLocal)
    (hsum : receivedCount (rxSlot dst src) g + lostCount (rxSlot dst src) g
      = expectedIndex (rxSlot dst src) l)
    (hx : expectedIndex (rxSlot dst src) l ≤ x) (hb : x < U32 - 1) :
    receivedCount (rxSlot dst src) (rxAccept dst ⟨dst, src, x, len⟩ g l).1
        = receivedCount (rxSlot dst src) g + 1 ∧
      receivedCount (rxSlot dst src) (rxAccept dst ⟨dst, src, x, len⟩ g l).1
        + lostCount (rxSlot dst src) (rxAccept dst ⟨dst, src, x, len⟩ g l).1 = x + 1 ∧
      expectedIndex (rxSlot dst src) (rxAccept dst ⟨dst, src, x, len⟩ g l).2 = x + 1 := by
  have hr := rxAccept_received dst ⟨dst, src, x, len⟩ g l
  have hl := rxAccept_lost dst ⟨dst, src, x, len⟩ g l
  have he := rxAccept_expected dst ⟨dst, src, x, len⟩ g l
  simp only at hr hl he
  have hU : U32 = 4294967296 := rfl
  have hr' : incU32 (receivedCount (rxSlot dst src) g)
      = receivedCount (rxSlot dst src) g + 1 := by
    unfold incU32
    exact Nat.mod_eq_of_lt (by omega)
  have he' : incU32 x = x + 1 := by
    unfold incU32
    exact Nat.mod_eq_of_lt (by omega)
  rw [hr, hl, he, hr', he']
  refine ⟨rfl, ?_, rfl⟩
  split
  · rw [subU32_of_le _ _ hx (by omega), Nat.mod_eq_of_lt (by omega)]
    omega
  · next hne =>
    simp only [ne_eq, not_not] at hne
    omega

theorem receiveFrames_in_order (src dst : Nat) :
    ∀ (xs : List Nat) (x : Nat) (g : Globals) (l : RxLocal),
      receivedCount (rxSlot dst src) g + lostCount (rxSlot dst src) g
        = expectedIndex (rxSlot dst src) l →
      expectedIndex (rxSlot dst src) l ≤ x → List.Chain (fun a b => a < b) x xs →
      (∀ y ∈ x :: xs, y < U32 - 1) →
      receivedCount (rxSlot dst src)
          (receiveFrames dst (framesOf src dst (x :: xs)) (g, l)).1
        = receivedCount (rxSlot dst src) g + (xs.length + 1) ∧
      receivedCount (rxSlot dst src)
          (receiveFrames dst (framesOf src dst (x :: xs)) (g, l)).1
        + lostCount (rxSlot dst src)
          (receiveFrames dst (framesOf src dst (x :: xs)) (g, l)).1
        = (x :: xs).getLast (List.cons_ne_nil x xs) + 1 ∧
      expectedIndex (rxSlot dst src)
          (receiveFrames dst (framesOf src dst (x :: xs)) (g, l)).2
        = (x :: xs).getLast (List.cons_ne_nil x xs) + 1 := by
  intro xs
  induction xs with
  | nil =>
    intro x g l hsum hx _ hb
    have h1 := rxAccept_in_order src dst x NET_MAX_PAYLOAD_SIZE g l hsum hx
      (hb x (List.mem_cons_self _ _))
    simpa [framesOf, receiveFrames, receiveFrame_accept] using h1
  | cons y ys ih =>
    intro x g l hsum hx hch hb
    have h1 := rxAccept_in_order src dst x NET_MAX_PAYLOAD_SIZE g l hsum hx
      (hb x (List.mem_cons_self _ _))
    rw [List.chain_cons] at hch
    have h2 := ih y (rxAccept dst ⟨dst, src, x, NET_MAX_PAYLOAD_SIZE⟩ g l).1
      (rxAccept dst ⟨dst, src, x, NET_MAX_PAYLOAD_SIZE⟩ g l).2
      (by rw [h1.2.1, h1.2.2]) (by rw [h1.2.2]; omega) hch.2
      (fun z hz => hb z (List.mem_cons_of_mem _ hz))
    have hstep : receiveFrames dst (framesOf src dst (x :: y :: ys)) (g, l)
        = receiveFrames dst (framesOf src dst (y :: ys))
            (rxAccept dst ⟨dst, src, x, NET_MAX_PAYLOAD_SIZE⟩ g l) := by
      simp [framesOf, receiveFrames, receiveFrame_accept]
    rw [hstep, List.getLast_cons (List.cons_ne_nil y ys)]
    refine ⟨?_, h2.2.1, h2.2.2⟩
    rw [h2.1, h1.1]
    simp only [List.length_cons]
    omega

/-- C6 (amended): for a non-empty strictly increasing list of sequence numbers, all at
most `2^32 - 2`, delivered from one source to a fresh receiver of the matching
destination, the received count is the length `n`, the lost count is `s_n + 1 - n` and
the cursor is `s_n + 1`. -/
theorem counts_after_increasing_arrivals (sourceNode nodeIdentity : Nat) (seqs : List Nat)
    (hne : seqs ≠ []) (hinc : seqs.Chain' (fun a b => a < b))
    (hb : ∀ x ∈ seqs, x < U32 - 1) :
    receivedCount (rxSlot nodeIdentity sourceNode)
        (receiveFrames nodeIdentity (framesOf sourceNode nodeIdentity seqs)
          (Globals.init, ⟨0, 0⟩)).1 = seqs.length ∧
    lostCount (rxSlot nodeIdentity sourceNode)
        (receiveFrames nodeIdentity (framesOf sourceNode nodeIdentity seqs)
          (Globals.init, ⟨0, 0⟩)).1 = seqs.getLast hne + 1 - seqs.length ∧
    expectedIndex (rxSlot nodeIdentity sourceNode)
        (receiveFrames nodeIdentity (framesOf sourceNode nodeIdentity seqs)
          (Globals.init, ⟨0, 0⟩)).2 = seqs.getLast hne + 1 := by
  cases seqs with
  | nil => exact absurd rfl hne
  | cons x xs =>
    have h0 : receivedCount (rxSlot nodeIdentity sourceNode) Globals.init
        + lostCount (rxSlot nodeIdentity sourceNode) Globals.init
        = expectedIndex (rxSlot nodeIdentity sourceNode) ⟨0, 0⟩ := by
      cases rxSlot nodeIdentity sourceNode <;> rfl
    have hE : expectedIndex (rxSlot nodeIdentity sourceNode) ⟨0, 0⟩ = 0 := by
      cases rxSlot nodeIdentity sourceNode <;> rfl
    have hR : receivedCount (rxSlot nodeIdentity sourceNode) Globals.init = 0 := by
      cases rxSlot nodeIdentity sourceNode <;> rfl
    obtain ⟨h1, h2, h3⟩ := receiveFrames_in_order sourceNode nodeIdentity xs x Globals.init
      ⟨0, 0⟩ h0 (by rw [hE]; exact Nat.zero_le _) hinc hb
    rw [hR] at h1
    refine ⟨?_, ?_, h3⟩
    · rw [h1]
      simp
    · rw [h1] at h2
      simp only [List.length_cons]
      omega

/-- Instance of C6 (amended), the scenario of the specification: arrivals 0 then 2 give
received 2, lost 1 and cursor 3. -/
theorem counts_after_increasing_arrivals_witness :
    receivedCount (rxSlot 3 1)
        (receiveFrames 3 (framesOf 1 3 [0, 2]) (Globals.init, ⟨0, 0⟩)).1 = 2 ∧
    lostCount (rxSlot 3 1)
        (receiveFrames 3 (framesOf 1 3 [0, 2]) (Globals.init, ⟨0, 0⟩)).1 = 1 ∧
    expectedIndex (rxSlot 3 1)
        (receiveFrames 3 (framesOf 1 3 [0, 2]) (Globals.init, ⟨0, 0⟩)).2 = 3 :=
  counts_after_increasing_arrivals 1 3 [0, 2] (by decide) (by simp) (by decide)

/-- Counterexample to C6 as stated: the one-element list `[4294967295]` is non-empty and
strictly increasing, and after it the cursor is 0, not `4294967295 + 1`. -/
theorem cursor_wraps_at_top_sequence :
    ([4294967295] : List Nat) ≠ [] ∧
    List.Chain' (fun a b : Nat => a < b) [4294967295] ∧
    expectedIndex (rxSlot 3 1)
        (receiveFrames 3 (framesOf 1 3 [4294967295]) (Globals.init, ⟨0, 0⟩)).2 = 0 ∧
    expectedIndex (rxSlot 3 1)
        (receiveFrames 3 (framesOf 1 3 [4294967295]) (Globals.init, ⟨0, 0⟩)).2
      ≠ 4294967295 + 1 :=
  ⟨by decide, by simp, by decide, by decide⟩

/-! ### The system -/

theorem reachable_of_runActions (actions : List Action) :
    ∀ s s1, Reachable s → runActions actions s = some s1 → Reachable s1 := by
  induction actions with
  | nil =>
    intro s s1 hr h
    simp only [runActions, Option.some.injEq] at h
    subst h
    exact hr
  | cons a rest ih =>
    intro s s1 hr h
    unfold runActions at h
    cases hs : step a s with
    | none => simp [hs] at h
    | some s2 =>
      rw [hs] at h
      exact ih s2 s1 (Reachable.step a s s2 hr hs) h

theorem demoState_reachable : Reachable demoState :=
  reachable_of_runActions demoActions Sys.init demoState Reachable.init (by decide)

/-- In every reachable state the completion flag is still false. -/
theorem reachable_flag_false (s : Sys) (h : Reachable s) : s.g.analyticsComplete = false :=
  (SysInv.of_reachable s h).flag

/-- C8: the router's target queue for a frame addressed to 3 or 4 is the queue read by
the receiver with that identity; and in every reachable state every frame waiting in
the queue of receiver 3 or 4 is addressed to that receiver, so the test of line 233
fails for it and the address-mismatch branch is not taken. -/
theorem address_mismatch_unreachable (s : Sys) (h : Reachable s) :
    (∀ frame : NetworkDataFrame, frame.destinationId = 3 ∨ frame.destinationId = 4 →
      targetQueue frame = receiveQueue frame.destinationId) ∧
    (∀ nodeIdentity, nodeIdentity = 3 ∨ nodeIdentity = 4 →
      ∀ frame ∈ s.queueOf (receiveQueue nodeIdentity),
        addressMismatch nodeIdentity frame = false ∧
        receiveFrame nodeIdentity frame s.g (s.rxLocal nodeIdentity)
          = rxAccept nodeIdentity frame s.g (s.rxLocal nodeIdentity)) := by
  have hi := SysInv.of_reachable s h
  refine ⟨?_, ?_⟩
  · intro frame hf
    rcases hf with h3 | h4
    · simp [targetQueue, receiveQueue, h3]
    · simp [targetQueue, receiveQueue, h4]
  · intro n hn frame hf
    have hd : frame.destinationId = n := by
      rcases hn with rfl | rfl
      · exact (hi.q3 frame hf).2
      · exact (hi.q4 frame hf).2
    exact ⟨by simp [addressMismatch, hd], receiveFrame_accept n frame s.g _ hd⟩

/-- Instance of C8 at the state reached by `demoActions`: the frame waiting in the queue
of receiver 3 passes the address test. -/
theorem address_mismatch_unreachable_witness :
    (⟨3, 1, 2, 1000⟩ : NetworkDataFrame) ∈ demoState.queueOf (receiveQueue 3) ∧
    addressMismatch 3 ⟨3, 1, 2, 1000⟩ = false :=
  ⟨by decide,
    ((address_mismatch_unreachable demoState demoState_reachable).2
      3 (Or.inl rfl) ⟨3, 1, 2, 1000⟩ (by decide)).1⟩

/-! ### Analytics -/

theorem crossed_iff (count m : Nat) (hm : m + 100 < U32) :
    crossed count m = true ↔ (m + 100 ≤ count ∨ 1000 ≤ count) := by
  unfold crossed
  rw [Nat.mod_eq_of_lt hm]
  simp

theorem reportingPoll_shouldReport (g : Globals) (m : Markers) :
    (reportingPoll g m).shouldReport = true ↔
      (crossed g.networkNode1To3Count m.lastReportedNode1To3 = true ∨
        crossed g.networkNode1To4Count m.lastReportedNode1To4 = true ∨
        crossed g.networkNode2To3Count m.lastReportedNode2To3 = true ∨
        crossed g.networkNode2To4Count m.lastReportedNode2To4 = true) := by
  unfold reportingPoll thresholdChecks
  simp only
  by_cases h1 : crossed g.networkNode1To3Count m.lastReportedNode1To3 = true <;>
    by_cases h2 : crossed g.networkNode1To4Count m.lastReportedNode1To4 = true <;>
    by_cases h3 : crossed g.networkNode2To3Count m.lastReportedNode2To3 = true <;>
    by_cases h4 : crossed g.networkNode2To4Count m.lastReportedNode2To4 = true <;>
    simp [h1, h2, h3, h4]

theorem reportingPoll_table (g : Globals) (m : Markers) :
    (reportingPoll g m).table ≠ none ↔ (reportingPoll g m).shouldReport = true := by
  unfold reportingPoll
  simp only
  cases (thresholdChecks g m).2 <;> simp

/-- C10 (amended): with markers below `2^32 - 100` (so that `marker + 100` does not
wrap), a poll prints a status table only if some pair's sent count is at least its
marker + 100 or at least 1000; a poll in which every pair's count is below both its
marker + 100 and 1000 prints no table. -/
theorem table_only_when_crossed (g : Globals) (m : Markers)
    (h13 : m.lastReportedNode1To3 + 100 < U32) (h14 : m.lastReportedNode1To4 + 100 < U32)
    (h23 : m.lastReportedNode2To3 + 100 < U32) (h24 : m.lastReportedNode2To4 + 100 < U32) :
    ((reportingPoll g m).table ≠ none →
      (m.lastReportedNode1To3 + 100 ≤ g.networkNode1To3Count ∨ 1000 ≤ g.networkNode1To3Count) ∨
      (m.lastReportedNode1To4 + 100 ≤ g.networkNode1To4Count ∨ 1000 ≤ g.networkNode1To4Count) ∨
      (m.lastReportedNode2To3 + 100 ≤ g.networkNode2To3Count ∨ 1000 ≤ g.networkNode2To3Count) ∨
      (m.lastReportedNode2To4 + 100 ≤ g.networkNode2To4Count ∨
        1000 ≤ g.networkNode2To4Count)) ∧
    ((g.networkNode1To3Count < m.lastReportedNode1To3 + 100 ∧ g.networkNode1To3Count < 1000) ∧
      (g.networkNode1To4Count < m.lastReportedNode1To4 + 100 ∧ g.networkNode1To4Count < 1000) ∧
      (g.networkNode2To3Count < m.lastReportedNode2To3 + 100 ∧ g.networkNode2To3Count < 1000) ∧
      (g.networkNode2To4Count < m.lastReportedNode2To4 + 100 ∧ g.networkNode2To4Count < 1000) →
      (reportingPoll g m).table = none) := by
  have key := reportingPoll_shouldReport g m
  rw [crossed_iff _ _ h13, crossed_iff _ _ h14, crossed_iff _ _ h23, crossed_iff _ _ h24] at key
  have ht := reportingPoll_table g m
  refine ⟨fun h => key.mp (ht.mp h), ?_⟩
  intro hlow
  by_contra hne
  have := key.mp (ht.mp hne)
  omega

/-- Instance of C10 (amended): node 1 has sent 100 frames to node 3 and the markers are
0; the poll prints a table and the count of that pair has reached marker + 100. -/
theorem table_only_when_crossed_witness :
    (reportingPoll ⟨100, 0, 0, 0, 0, 0, 0, 0, 0, 0, 0, 0, false⟩ ⟨0, 0, 0, 0⟩).table ≠ none ∧
    ((0 + 100 ≤ 100 ∨ 1000 ≤ 100) ∨ (0 + 100 ≤ 0 ∨ 1000 ≤ 0) ∨ (0 + 100 ≤ 0 ∨ 1000 ≤ 0) ∨
      (0 + 100 ≤ 0 ∨ 1000 ≤ 0)) :=
  ⟨by decide,
    (table_only_when_crossed ⟨100, 0, 0, 0, 0, 0, 0, 0, 0, 0, 0, 0, false⟩ ⟨0, 0, 0, 0⟩
      (by decide) (by decide) (by decide) (by decide)).1 (by decide)⟩

/-- Counterexample to C10 as stated: node 1 has sent 1000 frames to node 3
(`globalsAt1000`) and the marker of that pair is already 1000 (`markersAt1000`, set by
the poll before); the next poll prints a table although no pair's sent count has reached
its marker + 100. -/
theorem table_printed_without_crossing :
    (reportingPoll globalsAt1000 ⟨0, 0, 0, 0⟩).markers = markersAt1000 ∧
    (reportingPoll globalsAt1000 markersAt1000).table ≠ none ∧
    ¬ (markersAt1000.lastReportedNode1To3 + 100 ≤ globalsAt1000.networkNode1To3Count ∨
      markersAt1000.lastReportedNode1To4 + 100 ≤ globalsAt1000.networkNode1To4Count ∨
      markersAt1000.lastReportedNode2To3 + 100 ≤ globalsAt1000.networkNode2To3Count ∨
      markersAt1000.lastReportedNode2To4 + 100 ≤ globalsAt1000.networkNode2To4Count) := by
  decide

/-! ### Sequence numbers of the frames a producer enqueues -/

/-- A run with a rolled-back frame between two accepted ones: the accepted frames carry
the indices 0 and 1. -/
theorem rollback_leaves_no_gap_example :
    (transmitRun 1 [inputTo3, inputFail, inputTo3] TxState.init).centralQueue
      = [⟨3, 1, 0, 1000⟩, ⟨3, 1, 1, 1000⟩] := by
  decide

/-! ### The Reporting loop -/

theorem thresholdChecks_markers (g : Globals) (m : Markers) :
    (thresholdChecks g m).1 =
      ⟨if crossed g.networkNode1To3Count m.lastReportedNode1To3 = true then
          floorHundred g.networkNode1To3Count else m.lastReportedNode1To3,
        if crossed g.networkNode1To4Count m.lastReportedNode1To4 = true then
          floorHundred g.networkNode1To4Count else m.lastReportedNode1To4,
        if crossed g.networkNode2To3Count m.lastReportedNode2To3 = true then
          floorHundred g.networkNode2To3Count else m.lastReportedNode2To3,
        if crossed g.networkNode2To4Count m.lastReportedNode2To4 = true then
          floorHundred g.networkNode2To4Count else m.lastReportedNode2To4⟩ := by
  unfold thresholdChecks
  simp only
  by_cases h1 : crossed g.networkNode1To3Count m.lastReportedNode1To3 = true <;>
    by_cases h2 : crossed g.networkNode1To4Count m.lastReportedNode1To4 = true <;>
    by_cases h3 : crossed g.networkNode2To3Count m.lastReportedNode2To3 = true <;>
    by_cases h4 : crossed g.networkNode2To4Count m.lastReportedNode2To4 = true <;>
    simp [h1, h2, h3, h4]

/-- What holds of the markers in every state of the Reporting loop. -/
theorem markers_le_1000 (st : ReportingSys) (h : ReportingReachable st) :
    Reachable st.sys ∧ st.markers.lastReportedNode1To3 ≤ 1000 ∧
      st.markers.lastReportedNode1To4 ≤ 1000 ∧ st.markers.lastReportedNode2To3 ≤ 1000 ∧
      st.markers.lastReportedNode2To4 ≤ 1000 := by
  induction h with
  | init => exact ⟨Reachable.init, by decide, by decide, by decide, by decide⟩
  | step a st st1 _ hst ih =>
    obtain ⟨hr, h1, h2, h3, h4⟩ := ih
    cases a with
    | task b =>
      simp only [reportingStep] at hst
      cases hs : step b st.sys with
      | none => simp [hs] at hst
      | some s1 =>
        rw [hs] at hst
        simp only [Option.some.injEq] at hst
        subst hst
        exact ⟨Reachable.step b st.sys s1 hr hs, h1, h2, h3, h4⟩
    | poll =>
      simp only [reportingStep] at hst
      split at hst
      · simp only [Option.some.injEq] at hst
        subst hst
        have hi := SysInv.of_reachable st.sys hr
        have c13 : st.sys.g.networkNode1To3Count ≤ 1000 :=
          sent_le_1000 st.sys hi 1 3 (Or.inl rfl) (Or.inl rfl)
        have c14 : st.sys.g.networkNode1To4Count ≤ 1000 :=
          sent_le_1000 st.sys hi 1 4 (Or.inl rfl) (Or.inr rfl)
        have c23 : st.sys.g.networkNode2To3Count ≤ 1000 :=
          sent_le_1000 st.sys hi 2 3 (Or.inr rfl) (Or.inl rfl)
        have c24 : st.sys.g.networkNode2To4Count ≤ 1000 :=
          sent_le_1000 st.sys hi 2 4 (Or.inr rfl) (Or.inr rfl)
        have hf : ∀ c, c ≤ 1000 → floorHundred c ≤ 1000 := by
          intro c hc
          unfold floorHundred
          omega
        refine ⟨hr, ?_, ?_, ?_, ?_⟩ <;>
          simp only [reportingPoll, thresholdChecks_markers] <;> split
        · exact hf _ c13
        · exact h1
        · exact hf _ c14
        · exact h2
        · exact hf _ c23
        · exact h3
        · exact hf _ c24
        · exact h4
      · simp at hst

theorem reportingReachable_of_run (actions : List ReportingAction) :
    ∀ st st1, ReportingReachable st → runReporting actions st = some st1 →
      ReportingReachable st1 := by
  induction actions with
  | nil =>
    intro st st1 hr h
    simp only [runReporting, Option.some.injEq] at h
    subst h
    exact hr
  | cons a rest ih =>
    intro st st1 hr h
    unfold runReporting at h
    cases hs : reportingStep a st with
    | none => simp [hs] at h
    | some st2 =>
      rw [hs] at h
      exact ih st2 st1 (ReportingReachable.step a st st2 hr hs) h

set_option maxRecDepth 100000 in
theorem stateAfterHundred_reachable : ReportingReachable stateAfterHundred :=
  reportingReachable_of_run hundredSends ReportingSys.init stateAfterHundred
    ReportingReachable.init (by decide)

theorem floorHundred_eq (c : Nat) : floorHundred c = 100 * (c / 100) := by
  unfold floorHundred
  exact Nat.mul_comm _ _

theorem reportingPoll_table_some (g : Globals) (m : Markers) :
    (reportingPoll g m).table = some (statusTable g) ↔
      (reportingPoll g m).shouldReport = true := by
  unfold reportingPoll
  simp only
  cases (thresholdChecks g m).2 <;> simp

/-- C12: in every pass of the Reporting loop, for each of the four pairs with sent
count `c` and marker `m`, the marker becomes `100 * floor(c / 100)` if `c >= m + 100`
or `c >= 1000` and is unchanged otherwise; the status table, which has one line for each
of the four pairs, is printed in that pass if and only if at least one pair satisfied
the condition. -/
theorem reporting_poll_markers_and_table (st : ReportingSys) (h : ReportingReachable st) :
    (reportingPoll st.sys.g st.markers).markers.lastReportedNode1To3
      = (if st.markers.lastReportedNode1To3 + 100 ≤ st.sys.g.networkNode1To3Count ∨
            1000 ≤ st.sys.g.networkNode1To3Count then
          100 * (st.sys.g.networkNode1To3Count / 100)
        else st.markers.lastReportedNode1To3) ∧
    (reportingPoll st.sys.g st.markers).markers.lastReportedNode1To4
      = (if st.markers.lastReportedNode1To4 + 100 ≤ st.sys.g.networkNode1To4Count ∨
            1000 ≤ st.sys.g.networkNode1To4Count then
          100 * (st.sys.g.networkNode1To4Count / 100)
        else st.markers.lastReportedNode1To4) ∧
    (reportingPoll st.sys.g st.markers).markers.lastReportedNode2To3
      = (if st.markers.lastReportedNode2To3 + 100 ≤ st.sys.g.networkNode2To3Count ∨
            1000 ≤ st.sys.g.networkNode2To3Count then
          100 * (st.sys.g.networkNode2To3Count / 100)
        else st.markers.lastReportedNode2To3) ∧
    (reportingPoll st.sys.g st.markers).markers.lastReportedNode2To4
      = (if st.markers.lastReportedNode2To4 + 100 ≤ st.sys.g.networkNode2To4Count ∨
            1000 ≤ st.sys.g.networkNode2To4Count then
          100 * (st.sys.g.networkNode2To4Count / 100)
        else st.markers.lastReportedNode2To4) ∧
    ((reportingPoll st.sys.g st.markers).table = some (statusTable st.sys.g) ↔
      ((st.markers.lastReportedNode1To3 + 100 ≤ st.sys.g.networkNode1To3Count ∨
          1000 ≤ st.sys.g.networkNode1To3Count) ∨
        (st.markers.lastReportedNode1To4 + 100 ≤ st.sys.g.networkNode1To4Count ∨
          1000 ≤ st.sys.g.networkNode1To4Count) ∨
        (st.markers.lastReportedNode2To3 + 100 ≤ st.sys.g.networkNode2To3Count ∨
          1000 ≤ st.sys.g.networkNode2To3Count) ∨
        (st.markers.lastReportedNode2To4 + 100 ≤ st.sys.g.networkNode2To4Count ∨
          1000 ≤ st.sys.g.networkNode2To4Count))) ∧
    ((reportingPoll st.sys.g st.markers).table = none ↔
      ¬ ((st.markers.lastReportedNode1To3 + 100 ≤ st.sys.g.networkNode1To3Count ∨
          1000 ≤ st.sys.g.networkNode1To3Count) ∨
        (st.markers.lastReportedNode1To4 + 100 ≤ st.sys.g.networkNode1To4Count ∨
          1000 ≤ st.sys.g.networkNode1To4Count) ∨
        (st.markers.lastReportedNode2To3 + 100 ≤ st.sys.g.networkNode2To3Count ∨
          1000 ≤ st.sys.g.networkNode2To3Count) ∨
        (st.markers.lastReportedNode2To4 + 100 ≤ st.sys.g.networkNode2To4Count ∨
          1000 ≤ st.sys.g.networkNode2To4Count))) ∧
    (statusTable st.sys.g).map (fun row => (row.source, row.node))
      = [(1, 3), (2, 3), (1, 4), (2, 4)] := by
  obtain ⟨_, h1, h2, h3, h4⟩ := markers_le_1000 st h
  have hU : (1100 : Nat) < U32 := by unfold U32; omega
  have k1 := crossed_iff st.sys.g.networkNode1To3Count st.markers.lastReportedNode1To3
    (by omega)
  have k2 := crossed_iff st.sys.g.networkNode1To4Count st.markers.lastReportedNode1To4
    (by omega)
  have k3 := crossed_iff st.sys.g.networkNode2To3Count st.markers.lastReportedNode2To3
    (by omega)
  have k4 := crossed_iff st.sys.g.networkNode2To4Count st.markers.lastReportedNode2To4
    (by omega)
  have key := reportingPoll_shouldReport st.sys.g st.markers
  rw [k1, k2, k3, k4] at key
  have hm : (reportingPoll st.sys.g st.markers).markers
      = (thresholdChecks st.sys.g st.markers).1 := by
    simp only [reportingPoll]
  rw [hm, thresholdChecks_markers]
  simp only [k1, k2, k3, k4, floorHundred_eq]
  refine ⟨trivial, trivial, trivial, trivial, ?_, ?_, rfl⟩
  · rw [reportingPoll_table_some]
    exact key
  · rw [← key, ← reportingPoll_table_some]
    cases hT : (reportingPoll st.sys.g st.markers).table with
    | none =>
      simp
    | some t =>
      have : (reportingPoll st.sys.g st.markers).table ≠ none := by simp [hT]
      have h2 := (reportingPoll_table st.sys.g st.markers).mp this
      have h3 := (reportingPoll_table_some st.sys.g st.markers).mpr h2
      rw [hT] at h3
      simp [h3]

/-- Instance of C12 at the state reached by `hundredSends`: the pair (1, 3) has sent
count 100 and marker 0, so the pass sets its marker to 100 and prints the table. -/
theorem reporting_poll_markers_and_table_witness :
    (reportingPoll stateAfterHundred.sys.g
        stateAfterHundred.markers).markers.lastReportedNode1To3 = 100 ∧
    (reportingPoll stateAfterHundred.sys.g stateAfterHundred.markers).table
      = some (statusTable stateAfterHundred.sys.g) :=
  ⟨(reporting_poll_markers_and_table stateAfterHundred stateAfterHundred_reachable).1.trans
      (by decide),
    (reporting_poll_markers_and_table stateAfterHundred
      stateAfterHundred_reachable).2.2.2.2.1.mpr (by decide)⟩

end Eece2027
